import Mathlib

/-!
# Verification of the CMSIS-TFM persistence and boot-selection engines

Shallow embedding of the secure-storage engine (`sst_core.c`, `sst_utils.c`,
`sst_asset_management.c`), the dummy NV-counter backend
(`dummy_nv_counters.c`) and the mcuboot-derived boot loader (`loader.c`),
together with theorems settling the frozen claims about them.

Machine integers are modelled as `Nat` with explicit `% 2^w` wherever the C
arithmetic can wrap.  C structs read from / written to flash are modelled at
the field level: every flash access in the embedded code touches whole,
entry-aligned records, so typed reads/writes are in one-to-one correspondence
with the byte-offset accesses of the source.
-/

namespace SST

/-- Error codes of `enum tfm_sst_err_t` used by the secure storage service
(the defining header `tfm_sst_defs.h` is not under `src/`; the constructors
are named after the enumerators used by the sources). -/
inductive Err where
  | success
  | assetNotFound
  | paramError
  | invalidHandle
  | systemError
  | storageSystemFull
  deriving DecidableEq, Repr

/-- `sst_utils_check_contained_in` (sst_utils.c:62-86).  The four `uint32_t`
arguments are promoted to `uint64_t` and the range check is performed in
64-bit arithmetic; the additions are taken `% 2^64` exactly as in C. -/
def sst_utils_check_contained_in
    (superset_start superset_size subset_start subset_size : Nat) : Err :=
  if subset_start < superset_start ∨
     (subset_start + subset_size) % 2 ^ 64 >
       (superset_start + superset_size) % 2 ^ 64 then
    Err.paramError
  else
    Err.success

/-- `sst_utils_compose_handle` (sst_utils.c:104-107): `(uuid << 16) | idx`
for a 16-bit uuid and metadata index. -/
def sst_utils_compose_handle (asset_uuid meta_idx : Nat) : Nat :=
  (asset_uuid % 2 ^ 16) * 2 ^ 16 + meta_idx % 2 ^ 16

/-- `sst_utils_extract_uuid_from_handle` (sst_utils.c:109-112). -/
def sst_utils_extract_uuid_from_handle (asset_handle : Nat) : Nat :=
  asset_handle / 2 ^ 16 % 2 ^ 16

/-- `sst_utils_extract_index_from_handle` (sst_utils.c:114-117). -/
def sst_utils_extract_index_from_handle (asset_handle : Nat) : Nat :=
  asset_handle % 2 ^ 16

/-- `SST_INVALID_UUID` (sst_core.h, not under `src/`): the all-zero uuid
marks an unused object entry (`SST_ASSET_ID_NO_ASSET` is 0 and erased
entries are zero-filled by `sst_core_wipe_all`). -/
def SST_INVALID_UUID : Nat := 0

/-- `sst_utils_validate_uuid` (sst_utils.c:132-139). -/
def sst_utils_validate_uuid (unique_id : Nat) : Err :=
  if unique_id = SST_INVALID_UUID then Err.assetNotFound else Err.success

/-- Default value of erased flash bytes, `SST_FLASH_DEFAULT_VAL`
(flash/sst_flash.h). -/
def SST_FLASH_DEFAULT_VAL : Nat := 0xFF

/-- `SST_SUPPORTED_VERSION` from `sst_core.h` (header not under `src/`); the
sources only ever compare the stored fs-version against this constant for
equality, so its exact value is irrelevant to the claims. -/
def SST_SUPPORTED_VERSION : Nat := 0x01

/-- `SST_METADATA_BLOCK0` — physical index of the first metadata block; the
first two physical blocks are reserved for metadata (sst_core.c:1663). -/
def SST_METADATA_BLOCK0 : Nat := 0

/-- `SST_METADATA_BLOCK1` — physical index of the second metadata block. -/
def SST_METADATA_BLOCK1 : Nat := 1

/-- `SST_OTHER_META_BLOCK` — the metadata block other than the given one. -/
def SST_OTHER_META_BLOCK (m : Nat) : Nat :=
  if m = SST_METADATA_BLOCK0 then SST_METADATA_BLOCK1 else SST_METADATA_BLOCK0

/-- `struct sst_metadata_block_header` in its no-encryption layout: scratch
data-block index, fs version and the active swap count, the swap count being
the last member of the struct (sst_core.c:1070 relies on this).  The fields
`active_swap_count` and `fs_version` are `uint8_t` in the source. -/
structure MetaHeader where
  scratch_idx : Nat
  fs_version : Nat
  active_swap_count : Nat
  deriving DecidableEq, Repr

/-- `sst_meta_validate_swap_count` (sst_core.c:973-994): the erased-flash
value on the swap count marks a torn final write, so it is invalid. -/
def sst_meta_validate_swap_count (swap_count : Nat) : Err :=
  if swap_count = SST_FLASH_DEFAULT_VAL then Err.systemError else Err.success

/-- `sst_meta_validate_fs_version` (sst_core.c:1003-1015). -/
def sst_meta_validate_fs_version (fs_version : Nat) : Err :=
  if fs_version ≠ SST_SUPPORTED_VERSION then Err.systemError else Err.success

/-- `sst_meta_validate_header_meta` (sst_core.c:1026-1037). -/
def sst_meta_validate_header_meta (meta : MetaHeader) : Err :=
  match sst_meta_validate_fs_version meta.fs_version with
  | Err.success => sst_meta_validate_swap_count meta.active_swap_count
  | e => e

/-- `sst_meta_latest_meta_block` (sst_core.c:232-272): swap-count election
with the rollover rule. -/
def sst_meta_latest_meta_block (meta0 meta1 : MetaHeader) : Nat :=
  let meta0_swap_count := meta0.active_swap_count
  let meta1_swap_count := meta1.active_swap_count
  if meta1_swap_count = 0 ∧ meta0_swap_count ≠ 1 then
    SST_METADATA_BLOCK1
  else if meta0_swap_count = 0 ∧ meta1_swap_count ≠ 1 then
    SST_METADATA_BLOCK0
  else if meta1_swap_count > meta0_swap_count then
    SST_METADATA_BLOCK1
  else
    SST_METADATA_BLOCK0

/-- `sst_init_get_active_metablock` (sst_core.c:1653-1733), no-encryption
configuration, as a function of the two headers read from flash.  Returns the
`(active, scratch)` pair recorded in the system context, or the error
returned when neither header validates. -/
def sst_init_get_active_metablock (meta0 meta1 : MetaHeader) :
    Except Err (Nat × Nat) :=
  let valid0 := sst_meta_validate_header_meta meta0 = Err.success
  let valid1 := sst_meta_validate_header_meta meta1 = Err.success
  if valid0 ∧ valid1 then
    let cur := sst_meta_latest_meta_block meta0 meta1
    Except.ok (cur, SST_OTHER_META_BLOCK cur)
  else if valid1 then
    Except.ok (SST_METADATA_BLOCK1, SST_METADATA_BLOCK0)
  else if valid0 then
    Except.ok (SST_METADATA_BLOCK0, SST_METADATA_BLOCK1)
  else
    Except.error Err.systemError

end SST

namespace Boot

/-- Magic classification of a trailer area, the result of `boot_magic_decode`
(`BOOT_MAGIC_GOOD` / `BOOT_MAGIC_UNSET` / `BOOT_MAGIC_BAD`). -/
inductive BootMagic where
  | good
  | unset
  | bad
  deriving DecidableEq, Repr

/-- Flag classification of a trailer byte, the result of `boot_flag_decode`
(`BOOT_FLAG_SET` / `BOOT_FLAG_UNSET` / `BOOT_FLAG_BAD`). -/
inductive BootFlag where
  | set
  | unset
  | bad
  deriving DecidableEq, Repr

/-- A magic entry of `boot_status_tables` may additionally be the wildcard
`BOOT_MAGIC_ANY`. -/
inductive MagicPat where
  | good
  | unset
  | bad
  | any
  deriving DecidableEq, Repr

/-- A flag entry of `boot_status_tables` may additionally be the wildcard
`BOOT_FLAG_ANY`. -/
inductive FlagPat where
  | set
  | unset
  | bad
  | any
  deriving DecidableEq, Repr

/-- The comparison performed on magic entries by the loop in
`boot_status_source` (loader.c:443-444): wildcard or exact match. -/
def magicMatches : MagicPat → BootMagic → Bool
  | MagicPat.any, _ => true
  | MagicPat.good, BootMagic.good => true
  | MagicPat.unset, BootMagic.unset => true
  | MagicPat.bad, BootMagic.bad => true
  | _, _ => false

/-- The comparison performed on the copy-done entry by the loop in
`boot_status_source` (loader.c:447-448): wildcard or exact match. -/
def flagMatches : FlagPat → BootFlag → Bool
  | FlagPat.any, _ => true
  | FlagPat.set, BootFlag.set => true
  | FlagPat.unset, BootFlag.unset => true
  | FlagPat.bad, BootFlag.bad => true
  | _, _ => false

/-- `BOOT_STATUS_SOURCE_...` codes. -/
inductive StatusSource where
  | none
  | primarySlot
  | scratch
  deriving DecidableEq, Repr

/-- `struct boot_status_table` (loader.c:65-70). -/
structure BootStatusTable where
  bst_magic_primary_slot : MagicPat
  bst_magic_scratch : MagicPat
  bst_copy_done_primary_slot : FlagPat
  bst_status_source : StatusSource
  deriving DecidableEq, Repr

/-- `boot_status_tables` (loader.c:76-140), in declaration order. -/
def boot_status_tables : List BootStatusTable :=
  [⟨MagicPat.good, MagicPat.any, FlagPat.set, StatusSource.none⟩,
   ⟨MagicPat.good, MagicPat.any, FlagPat.unset, StatusSource.primarySlot⟩,
   ⟨MagicPat.any, MagicPat.good, FlagPat.any, StatusSource.scratch⟩,
   ⟨MagicPat.unset, MagicPat.any, FlagPat.unset, StatusSource.primarySlot⟩]

/-- The swap state of a slot or of the scratch area as read by
`boot_read_swap_state_by_id` (`struct boot_swap_state`). -/
structure BootSwapState where
  magic : BootMagic
  copy_done : BootFlag
  image_ok : BootFlag
  deriving DecidableEq, Repr

/-- `boot_status_source` (loader.c:420-462): first table row matching the
primary-slot and scratch swap states decides the status source; falls back to
`BOOT_STATUS_SOURCE_NONE` when no row matches. -/
def boot_status_source (state_primary_slot state_scratch : BootSwapState) :
    StatusSource :=
  match boot_status_tables.find? (fun t =>
      magicMatches t.bst_magic_primary_slot state_primary_slot.magic &&
      magicMatches t.bst_magic_scratch state_scratch.magic &&
      flagMatches t.bst_copy_done_primary_slot state_primary_slot.copy_done)
  with
  | some t => t.bst_status_source
  | none => StatusSource.none

/-- `BOOT_SWAP_TYPE_...` values (bootutil.h, not under `src/`; only the
distinctions matter).  The `panicSt` constructor stands for the PANIC type. -/
inductive BootSwapType where
  | none
  | test
  | perm
  | revert
  | fail
  | panicSt
  deriving DecidableEq, Repr

/-- `BOOT_PRIMARY_SLOT`. -/
def BOOT_PRIMARY_SLOT : Nat := 0

/-- `BOOT_SECONDARY_SLOT`. -/
def BOOT_SECONDARY_SLOT : Nat := 1

/-- `BOOT_EBADIMAGE` (bootutil.h, not under `src/`; exact value immaterial). -/
def BOOT_EBADIMAGE : Int := 3

/-- The facts about the image sitting in a slot that `boot_validate_slot`
inspects: whether the stored header magic bytes are all the erased value,
whether `ih_magic == IMAGE_MAGIC`, the `IMAGE_F_NON_BOOTABLE` flag, and
whether the hash/signature validation of `boot_image_check` succeeds. -/
structure SlotImage where
  headerMagicErased : Bool
  ihMagicOk : Bool
  nonBootable : Bool
  imageCheckOk : Bool
  deriving DecidableEq, Repr

/-- `boot_validate_slot` (loader.c:291-332).  Returns the C return code
together with whether the call erased the slot's flash area.  An image with
erased header magic or with the non-bootable flag is rejected without
touching the slot; a present-but-wrong magic or a failed image check causes
the slot to be erased when it is not the primary slot. -/
def boot_validate_slot (slot : Nat) (img : SlotImage) : Int × Bool :=
  if img.headerMagicErased || img.nonBootable then
    (-1, false)
  else if !img.ihMagicOk || !img.imageCheckOk then
    (-1, slot != 0)
  else
    (0, false)

/-- `boot_validated_swap_type` (loader.c:720-739), parameterised by the
requested swap type that `boot_swap_type()` derived from the trailer flags
(`bootutil_misc.c` is not under `src/`).  Returns the possibly demoted swap
type together with whether the secondary slot got erased. -/
def boot_validated_swap_type (requested : BootSwapType)
    (secondary : SlotImage) : BootSwapType × Bool :=
  match requested with
  | BootSwapType.test | BootSwapType.perm | BootSwapType.revert =>
      let v := boot_validate_slot BOOT_SECONDARY_SLOT secondary
      if v.1 ≠ 0 then (BootSwapType.fail, v.2) else (requested, v.2)
  | t => (t, false)

/-- The slot-decision switch of the swap-variant `boot_go`
(loader.c:1460-1530): `NONE`, `FAIL` boot the primary slot; `TEST`, `PERM`,
`REVERT` pick the secondary slot but `reload_headers` then re-assigns the
primary slot (and the boot response is always built from the primary slot,
loader.c:1571-1573); `PANIC` halts. -/
def boot_go_final_slot : BootSwapType → Option Nat
  | BootSwapType.none => some BOOT_PRIMARY_SLOT
  | BootSwapType.test => some BOOT_PRIMARY_SLOT
  | BootSwapType.perm => some BOOT_PRIMARY_SLOT
  | BootSwapType.revert => some BOOT_PRIMARY_SLOT
  | BootSwapType.fail => some BOOT_PRIMARY_SLOT
  | BootSwapType.panicSt => none

/-- `struct image_version`. -/
structure ImageVersion where
  iv_major : Nat
  iv_minor : Nat
  iv_revision : Nat
  iv_build_num : Nat
  deriving DecidableEq, Repr

/-- `IMAGE_VER_MINOR_LENGTH` (image.h, not under `src/`; the spec's 64-bit
packing `(major << (minor+rev+build_bits)) | ...` fixes the layout). -/
def IMAGE_VER_MINOR_LENGTH : Nat := 8

/-- `IMAGE_VER_REVISION_LENGTH` (image.h, not under `src/`). -/
def IMAGE_VER_REVISION_LENGTH : Nat := 16

/-- `IMAGE_VER_BUILD_NUM_LENGTH` (image.h, not under `src/`). -/
def IMAGE_VER_BUILD_NUM_LENGTH : Nat := 32

/-- `boot_get_version_number` (loader.c:1619-1631): the 64-bit packed
version.  The C code ORs disjoint shifted fields, which for in-range fields
equals this sum. -/
def boot_get_version_number (v : ImageVersion) : Nat :=
  v.iv_major * 2 ^ (IMAGE_VER_MINOR_LENGTH + IMAGE_VER_REVISION_LENGTH +
    IMAGE_VER_BUILD_NUM_LENGTH) +
  v.iv_minor * 2 ^ (IMAGE_VER_REVISION_LENGTH + IMAGE_VER_BUILD_NUM_LENGTH) +
  v.iv_revision * 2 ^ IMAGE_VER_BUILD_NUM_LENGTH +
  v.iv_build_num

/-- Per-slot inputs of the multi-slot (no-swap / RAM-loading) variant: the
image header facts, the trailer swap state and the image version. -/
structure MultiSlot where
  ihMagicOk : Bool
  trailer_magic : BootMagic
  image_ok : BootFlag
  version : ImageVersion
  headerMagicErased : Bool
  nonBootable : Bool
  imageCheckOk : Bool
  deriving DecidableEq, Repr

/-- The candidacy condition of `boot_get_boot_sequence` (loader.c:1693-1703):
valid header magic, and trailer magic good or image-ok flag set. -/
def slotCandidate (s : MultiSlot) : Bool :=
  s.ihMagicOk &&
    (s.trailer_magic == BootMagic.good || s.image_ok == BootFlag.set)

/-- View of a multi-slot record as the input of `boot_validate_slot`. -/
def MultiSlot.toSlotImage (s : MultiSlot) : SlotImage :=
  ⟨s.headerMagicErased, s.ihMagicOk, s.nonBootable, s.imageCheckOk⟩

/-- `boot_get_boot_sequence` (loader.c:1672-1723) for the two slots of this
platform (`BOOT_NUM_SLOTS = 2`).  `image_versions` is zero-initialised, so a
non-candidate slot contributes the placeholder entry `(0, 0)`.  The whole
array is passed to `qsort` with `boot_compare_version_numbers` (descending);
`qsort`'s order on equal keys is unspecified and is modelled as the stable
outcome, matching the spec's stable-sort step: the pair is swapped only when
strictly out of order.  Returns the slot sequence and the candidate count. -/
def boot_get_boot_sequence (s0 s1 : MultiSlot) : List Nat × Nat :=
  let e0 := if slotCandidate s0 then
    (boot_get_version_number s0.version, 0) else ((0 : Nat), (0 : Nat))
  let e1 := if slotCandidate s1 then
    (boot_get_version_number s1.version, 1) else ((0 : Nat), (0 : Nat))
  let image_cnt := (if slotCandidate s0 then 1 else 0) +
    (if slotCandidate s1 then 1 else 0)
  let sorted := if e0.1 < e1.1 then [e1, e0] else [e0, e1]
  (sorted.map Prod.snd, image_cnt)

/-- The selection phase of the multi-slot `boot_go` (loader.c:1838-1852):
walk the first `img_cnt` entries of the boot sequence and pick the first slot
that `boot_validate_slot` accepts; with no candidates, or when every walked
slot fails validation, return `BOOT_EBADIMAGE`.  The security-counter update
and the RAM-load copy performed after the selection are not modelled. -/
def boot_go_multi (s0 s1 : MultiSlot) : Except Int Nat :=
  let sq := boot_get_boot_sequence s0 s1
  let slots := fun i => if i = 0 then s0 else s1
  match (sq.1.take sq.2).find? (fun i =>
      (boot_validate_slot i (slots i).toSlotImage).1 == 0) with
  | some slot => Except.ok slot
  | Option.none => Except.error BOOT_EBADIMAGE

/-- The boot order the spec describes, written from the spec's words: the
candidate slots only, in descending packed-version order, stable on ties. -/
def specBootOrder (s0 s1 : MultiSlot) : List Nat :=
  if slotCandidate s0 ∧ slotCandidate s1 then
    if boot_get_version_number s0.version < boot_get_version_number s1.version
    then [1, 0] else [0, 1]
  else if slotCandidate s0 then [0]
  else if slotCandidate s1 then [1]
  else []

end Boot

namespace Nv

/-- Error codes of `enum tfm_plat_err_t` used by `dummy_nv_counters.c`
(`tfm_plat_defs.h` is not under `src/`). -/
inductive PlatErr where
  | success
  | systemErr
  | maxValue
  deriving DecidableEq, Repr

/-- Watermark `NV_COUNTERS_INITIALIZED` (dummy_nv_counters.c:52). -/
def NV_COUNTERS_INITIALIZED : Nat := 0xC0DE0042

/-- `UINT32_MAX`. -/
def UINT32_MAX : Nat := 0xFFFFFFFF

/-- The NV-counter flash sector as seen by `dummy_nv_counters.c`: the
watermark word at the end of the counter area and the 32-bit counter words
(indexed by counter id). -/
structure NvState where
  watermark : Nat
  counters : Nat → Nat

/-- `tfm_plat_init_nv_counter` (dummy_nv_counters.c:57-104): a no-op when the
watermark is present, otherwise writes the watermark and zero-initialises
every counter.  Flash reads/writes are assumed to succeed. -/
def tfm_plat_init_nv_counter (s : NvState) : PlatErr × NvState :=
  if s.watermark = NV_COUNTERS_INITIALIZED then
    (PlatErr.success, s)
  else
    (PlatErr.success, ⟨NV_COUNTERS_INITIALIZED, fun _ => 0⟩)

/-- `tfm_plat_read_nv_counter` (dummy_nv_counters.c:106-124): reads the
counter word directly from flash (no watermark check). -/
def tfm_plat_read_nv_counter (s : NvState) (counter_id : Nat) : Nat :=
  s.counters counter_id

/-- `tfm_plat_increment_nv_counter` (dummy_nv_counters.c:126-165): reports
`TFM_PLAT_ERR_MAX_VALUE` without modifying the sector when the counter is at
`UINT32_MAX`, otherwise rewrites the sector with that counter incremented. -/
def tfm_plat_increment_nv_counter (s : NvState) (counter_id : Nat) :
    PlatErr × NvState :=
  if s.counters counter_id = UINT32_MAX then
    (PlatErr.maxValue, s)
  else
    (PlatErr.success,
      ⟨s.watermark,
       fun i => if i = counter_id then s.counters counter_id + 1
                else s.counters i⟩)

/-- An operation of the claim's traces. -/
inductive NvOp where
  | init
  | increment (counter_id : Nat)

/-- State transition of one operation (the returned error is not part of the
state). -/
def nvStep (s : NvState) : NvOp → NvState
  | NvOp.init => (tfm_plat_init_nv_counter s).2
  | NvOp.increment i => (tfm_plat_increment_nv_counter s i).2

/-- Run a trace of operations. -/
def nvRun (s : NvState) (ops : List NvOp) : NvState :=
  ops.foldl nvStep s

/-- A freshly erased NV-counter sector: every byte `0xFF`, so the watermark
is absent and every counter word reads `UINT32_MAX`. -/
def erasedNvState : NvState :=
  ⟨0xFFFFFFFF, fun _ => UINT32_MAX⟩

end Nv

namespace Am

open SST

/-- `SST_PERM_FORBIDDEN` and friends (sst_asset_management.h, not under
`src/`): permission bit-masks; `BYPASS` and `FORBIDDEN` are the distinguished
sentinels compared with `==` by `sst_am_get_db_entry`. -/
def SST_PERM_FORBIDDEN : Nat := 0

/-- `SST_PERM_REFERENCE` permission bit. -/
def SST_PERM_REFERENCE : Nat := 1

/-- `SST_PERM_READ` permission bit. -/
def SST_PERM_READ : Nat := 2

/-- `SST_PERM_WRITE` permission bit. -/
def SST_PERM_WRITE : Nat := 4

/-- `SST_PERM_BYPASS` sentinel. -/
def SST_PERM_BYPASS : Nat := 8

/-- `S_APP_ID` (tfm headers, not under `src/`; only equality matters). -/
def S_APP_ID : Nat := 100

/-- `struct sst_asset_info_t`: one row of the compile-time policy database
`asset_perms[]`. -/
structure AssetInfo where
  asset_uuid : Nat
  max_size : Nat
  perms_count : Nat
  perms_modes_start_idx : Nat
  deriving DecidableEq, Repr

/-- `struct sst_asset_perm_t`: one row of `asset_perms_modes[]`. -/
structure AssetPerm where
  app : Nat
  perm : Nat
  deriving DecidableEq, Repr

/-- The two policy arrays. -/
structure PolicyDb where
  asset_perms : List AssetInfo
  asset_perms_modes : List AssetPerm
  deriving DecidableEq, Repr

/-- `sst_am_lookup_db_entry` (sst_asset_management.c:57-69). -/
def sst_am_lookup_db_entry (db : PolicyDb) (uuid : Nat) : Option AssetInfo :=
  db.asset_perms.find? (fun e => e.asset_uuid == uuid)

/-- `sst_am_lookup_app_perms` (sst_asset_management.c:33-48): scans the
`perms_count` entries starting at `perms_modes_start_idx`. -/
def sst_am_lookup_app_perms (db : PolicyDb) (db_entry : AssetInfo)
    (app_id : Nat) : Option AssetPerm :=
  ((db.asset_perms_modes.drop db_entry.perms_modes_start_idx).take
      db_entry.perms_count).find? (fun p => p.app == app_id)

/-- `sst_am_check_s_ns_policy` (sst_asset_management.c:79-124), with the
external `sst_utils_validate_secure_caller` result passed in as
`callerIsSecure`. -/
def sst_am_check_s_ns_policy (callerIsSecure : Bool) (app_id : Nat)
    (request_type : Nat) : Nat :=
  if callerIsSecure then
    if app_id ≠ S_APP_ID then
      if request_type &&& SST_PERM_READ ≠ 0 then SST_PERM_REFERENCE
      else SST_PERM_FORBIDDEN
    else SST_PERM_BYPASS
  else if app_id = S_APP_ID then SST_PERM_FORBIDDEN
  else request_type

/-- `sst_am_get_db_entry` (sst_asset_management.c:140-182). -/
def sst_am_get_db_entry (callerIsSecure : Bool) (db : PolicyDb)
    (app_id uuid request_type : Nat) : Option AssetInfo :=
  let rt := sst_am_check_s_ns_policy callerIsSecure app_id request_type
  if rt = SST_PERM_FORBIDDEN then
    Option.none
  else
    match sst_am_lookup_db_entry db uuid with
    | Option.none => Option.none
    | some db_entry =>
        if rt = SST_PERM_BYPASS then some db_entry
        else
          match sst_am_lookup_app_perms db db_entry app_id with
          | Option.none => Option.none
          | some perm_entry =>
              if perm_entry.perm &&& rt ≠ 0 then some db_entry
              else Option.none

/-- `sst_am_get_db_entry_by_hdl` (sst_asset_management.c:193-202). -/
def sst_am_get_db_entry_by_hdl (callerIsSecure : Bool) (db : PolicyDb)
    (app_id asset_handle request_type : Nat) : Option AssetInfo :=
  sst_am_get_db_entry callerIsSecure db app_id
    (sst_utils_extract_uuid_from_handle asset_handle) request_type

/-- The permission set `SST_PERM_REFERENCE | SST_PERM_READ | SST_PERM_WRITE`
used by `sst_am_get_handle` and `sst_am_get_attributes`. -/
def allPerms : Nat := SST_PERM_REFERENCE ||| SST_PERM_READ ||| SST_PERM_WRITE

/-- `sst_am_get_handle` (sst_asset_management.c:289-335) at the error-code
level.  `hdlBoundOk` is the oracle for the memory bound check on the handle
pointer; `lower` is the result of `sst_object_handle`. -/
def sst_am_get_handle (callerIsSecure : Bool) (db : PolicyDb)
    (app_id asset_uuid : Nat) (hdlBoundOk : Bool) (lower : Err) : Err :=
  match sst_am_get_db_entry callerIsSecure db app_id asset_uuid allPerms with
  | Option.none => Err.assetNotFound
  | some _ =>
      if ¬ hdlBoundOk then Err.paramError
      else if lower ≠ Err.success then Err.assetNotFound
      else Err.success

/-- `sst_am_get_attributes` (sst_asset_management.c:337-369):
the bound check on the caller's attribute struct precedes the policy check. -/
def sst_am_get_attributes (callerIsSecure : Bool) (db : PolicyDb)
    (app_id asset_handle : Nat) (attribBoundOk : Bool) (lower : Err) : Err :=
  if ¬ attribBoundOk then Err.paramError
  else
    match sst_am_get_db_entry_by_hdl callerIsSecure db app_id asset_handle
        allPerms with
    | Option.none => Err.assetNotFound
    | some _ => lower

/-- `sst_am_create` (sst_asset_management.c:371-383); `lower` is the result
of `sst_object_create`. -/
def sst_am_create (callerIsSecure : Bool) (db : PolicyDb)
    (app_id asset_uuid : Nat) (lower : Err) : Err :=
  match sst_am_get_db_entry callerIsSecure db app_id asset_uuid
      SST_PERM_WRITE with
  | Option.none => Err.assetNotFound
  | some _ => lower

/-- `sst_am_read` (sst_asset_management.c:385-408); `iovecOk` is the oracle
for `validate_copy_validate_iovec` (whose failure is reported as
`ASSET_NOT_FOUND` by the source), `lower` the result of `sst_object_read`. -/
def sst_am_read (callerIsSecure : Bool) (db : PolicyDb)
    (app_id asset_handle : Nat) (iovecOk : Bool) (lower : Err) : Err :=
  match sst_am_get_db_entry_by_hdl callerIsSecure db app_id asset_handle
      SST_PERM_READ with
  | Option.none => Err.assetNotFound
  | some _ =>
      if ¬ iovecOk then Err.assetNotFound
      else lower

/-- `sst_am_write` (sst_asset_management.c:410-439). -/
def sst_am_write (callerIsSecure : Bool) (db : PolicyDb)
    (app_id asset_handle : Nat) (iovecOk : Bool) (offset size : Nat)
    (lower : Err) : Err :=
  match sst_am_get_db_entry_by_hdl callerIsSecure db app_id asset_handle
      SST_PERM_WRITE with
  | Option.none => Err.assetNotFound
  | some db_entry =>
      if ¬ iovecOk then Err.assetNotFound
      else
        match sst_utils_check_contained_in 0 db_entry.max_size offset size with
        | Err.success => lower
        | e => e

/-- `sst_am_delete` (sst_asset_management.c:441-453). -/
def sst_am_delete (callerIsSecure : Bool) (db : PolicyDb)
    (app_id asset_handle : Nat) (lower : Err) : Err :=
  match sst_am_get_db_entry_by_hdl callerIsSecure db app_id asset_handle
      SST_PERM_WRITE with
  | Option.none => Err.assetNotFound
  | some _ => lower

end Am

namespace Core

open SST

/-- `SST_BLOCK_SIZE` (flash/sst_flash.h). -/
def SST_BLOCK_SIZE : Nat := 4096

/-- `SST_TOTAL_NUM_OF_BLOCKS` (flash/sst_flash.h). -/
def SST_TOTAL_NUM_OF_BLOCKS : Nat := 5

/-- `SST_NUM_ASSETS` (assets/sst_asset_defs.h). -/
def SST_NUM_ASSETS : Nat := 10

/-- `SST_MAX_ASSET_SIZE` (assets/sst_asset_defs.h). -/
def SST_MAX_ASSET_SIZE : Nat := 2048

/-- `SST_NUM_ACTIVE_DBLOCKS` for 5 total blocks: 2 dedicated data blocks plus
logical data block 0 inside the metadata block (sst_core.c:45-64). -/
def SST_NUM_ACTIVE_DBLOCKS : Nat := 3

/-- `SST_LOGICAL_DBLOCK0` (sst_core.c:66). -/
def SST_LOGICAL_DBLOCK0 : Nat := 0

/-- `SST_METADATA_INVALID_INDEX` (sst_core.h, not under `src/`): an
out-of-table sentinel index. -/
def SST_METADATA_INVALID_INDEX : Nat := 0xFFFF

/-- `2^32`, the modulus of the C `uint32_t` arithmetic. -/
def U32 : Nat := 2 ^ 32

/-- `uint32_t` addition. -/
def u32add (a b : Nat) : Nat := (a + b) % U32

/-- `uint32_t` subtraction `a - b`. -/
def u32sub (a b : Nat) : Nat := (a % U32 + (U32 - b % U32)) % U32

/-- `struct sst_block_metadata` (sst_core.h, layout used by sst_core.c):
physical block id, start offset of the data region, free byte count. -/
structure BlockMeta where
  phys_id : Nat
  data_start : Nat
  free_size : Nat
  deriving DecidableEq, Repr, Inhabited

/-- `struct sst_assetmeta` (sst_core.h, fields used by sst_core.c in the
no-encryption configuration). -/
structure AssetMeta where
  unique_id : Nat
  lblock : Nat
  data_index : Nat
  max_size : Nat
  cur_size : Nat
  deriving DecidableEq, Repr, Inhabited

/-- One physical flash block, typed.  The first two physical blocks carry the
metadata header, the block-metadata array and the object-metadata array
followed by the data region of logical data block 0; dedicated data blocks
only use `data`.  `data` maps a byte offset to the stored byte.  All flash
accesses of sst_core.c touch whole entry-aligned records of this layout, so
the typed fields are in one-to-one correspondence with the byte ranges of the
source. -/
structure Block where
  header : MetaHeader
  bmeta : List BlockMeta
  ometa : List AssetMeta
  data : Nat → Nat

/-- The flash pool, indexed by physical block id. -/
def Flash : Type := Nat → Block

/-- Update one physical block. -/
def writeBlock (f : Flash) (block_id : Nat) (g : Block → Block) : Flash :=
  fun b => if b = block_id then g (f b) else f b

/-- An erased object-metadata entry: every byte `0xFF`. -/
def erasedAssetMeta : AssetMeta := ⟨0xFFFF, 0xFFFFFFFF, 0xFFFFFFFF, 0xFFFF, 0xFFFF⟩

/-- An erased block-metadata entry: every byte `0xFF`. -/
def erasedBlockMeta : BlockMeta := ⟨0xFFFFFFFF, 0xFFFFFFFF, 0xFFFFFFFF⟩

/-- A fully erased block (`flash_erase_block`): every byte, hence every typed
field, holds the erased value. -/
def erasedBlock : Block where
  header := ⟨0xFFFFFFFF, 0xFF, 0xFF⟩
  bmeta := List.replicate SST_NUM_ACTIVE_DBLOCKS erasedBlockMeta
  ometa := List.replicate SST_NUM_ASSETS erasedAssetMeta
  data := fun _ => 0xFF

/-- `flash_block_to_block_move` on data-region bytes: copy `size` bytes from
`(src_block, src_offset)` to `(dst_block, dst_offset)`. -/
def moveDataBytes (f : Flash) (dst_block dst_offset src_block src_offset size : Nat) :
    Flash :=
  writeBlock f dst_block (fun b =>
    { b with data := fun o =>
        if dst_offset ≤ o ∧ o < dst_offset + size then
          (f src_block).data (src_offset + (o - dst_offset))
        else b.data o })

/-- `flash_write` of caller-supplied payload bytes into a data region. -/
def writeDataBytes (f : Flash) (block_id offset size : Nat) (payload : Nat → Nat) :
    Flash :=
  writeBlock f block_id (fun b =>
    { b with data := fun o =>
        if offset ≤ o ∧ o < offset + size then payload (o - offset)
        else b.data o })

/-- Recursion worker for `copyEntries`, carrying the absolute entry index. -/
def copyEntriesAux {α : Type} (src : List α) (lo hi : Nat) :
    Nat → List α → List α
  | _, [] => []
  | j, a :: rest =>
      (if lo ≤ j ∧ j < hi then src.getD j a else a) ::
        copyEntriesAux src lo hi (j + 1) rest

/-- Replace the entries `lo ≤ j < hi` of `dst` by those of `src` (what an
entry-aligned `flash_block_to_block_move` over a metadata array does). -/
def copyEntries {α : Type} (src dst : List α) (lo hi : Nat) : List α :=
  copyEntriesAux src lo hi 0 dst

/-- The in-RAM part of `struct sst_asset_system_context` used by the block
engine: ids of the active and scratch metadata blocks and the cached
metadata-block header. -/
structure Ctx where
  active_metablock : Nat
  scratch_metablock : Nat
  meta_block_header : MetaHeader

/-- The complete state a core operation acts on: the flash pool and the
system context. -/
structure SstState where
  flash : Flash
  ctx : Ctx

/-- `sst_meta_cur_meta_scratch` (sst_core.c:166-169). -/
def sst_meta_cur_meta_scratch (s : SstState) : Nat := s.ctx.scratch_metablock

/-- `sst_meta_cur_meta_active` (sst_core.c:176-179). -/
def sst_meta_cur_meta_active (s : SstState) : Nat := s.ctx.active_metablock

/-- `sst_meta_swap_metablocks` (sst_core.c:184-191). -/
def sst_meta_swap_metablocks (s : SstState) : SstState :=
  { s with ctx := { s.ctx with
      active_metablock := s.ctx.scratch_metablock,
      scratch_metablock := s.ctx.active_metablock } }

/-- `sst_meta_cur_data_scratch` (sst_core.c:200-208): the scratch metadata
block for logical block 0, otherwise the scratch data block recorded in the
cached header. -/
def sst_meta_cur_data_scratch (s : SstState) (lblock : Nat) : Nat :=
  if lblock = SST_LOGICAL_DBLOCK0 then sst_meta_cur_meta_scratch s
  else s.ctx.meta_block_header.scratch_idx

/-- `sst_meta_set_data_scratch` (sst_core.c:216-221). -/
def sst_meta_set_data_scratch (s : SstState) (index lblock : Nat) : SstState :=
  if lblock ≠ SST_LOGICAL_DBLOCK0 then
    { s with ctx := { s.ctx with meta_block_header :=
        { s.ctx.meta_block_header with scratch_idx := index } } }
  else s

/-- `sst_meta_read_block_metadata` (sst_core.c:330-349): a flash read of one
block-metadata entry from the active metadata block (flash reads succeed
in-model; `SST_VALIDATE_METADATA_FROM_FLASH` is not defined in this
configuration). -/
def sst_meta_read_block_metadata (s : SstState) (lblock : Nat) : BlockMeta :=
  (s.flash (sst_meta_cur_meta_active s)).bmeta.getD lblock default

/-- `sst_meta_read_object_meta` (sst_core.c:414-431). -/
def sst_meta_read_object_meta (s : SstState) (object_index : Nat) : AssetMeta :=
  (s.flash s.ctx.active_metablock).ometa.getD object_index default

/-- `sst_dblock_lo_to_phy` (sst_core.c:470-481). -/
def sst_dblock_lo_to_phy (s : SstState) (lblock : Nat) : Nat :=
  (sst_meta_read_block_metadata s lblock).phys_id

/-- Sequencing of two mutating steps: run `f` on the state of `r` and
append the write logs. -/
def opSeq (r : SstState × List Nat) (f : SstState → SstState × List Nat) :
    SstState × List Nat :=
  ((f r.1).1, r.2 ++ (f r.1).2)

/-- `sst_mblock_update_scratch_object_meta` (sst_core.c:543-557): write one
object-metadata entry into the scratch metadata block.  Alongside the new
state, the list of physical blocks written by the call is returned (this
write-target log is threaded through all mutating helpers). -/
def sst_mblock_update_scratch_object_meta (s : SstState) (object_index : Nat)
    (obj_meta : AssetMeta) : SstState × List Nat :=
  let scratch_block := sst_meta_cur_meta_scratch s
  let f := writeBlock s.flash scratch_block
    (fun b => { b with ometa := b.ometa.set object_index obj_meta })
  ({ s with flash := f }, [scratch_block])

/-- `sst_mblock_update_scratch_block_meta` (sst_core.c:601-614). -/
def sst_mblock_update_scratch_block_meta (s : SstState) (lblock : Nat)
    (block_meta : BlockMeta) : SstState × List Nat :=
  let meta_block := sst_meta_cur_meta_scratch s
  let f := writeBlock s.flash meta_block
    (fun b => { b with bmeta := b.bmeta.set lblock block_meta })
  ({ s with flash := f }, [meta_block])

/-- `sst_mblock_copy_remaining_object_meta` (sst_core.c:624-658): copy the
object-metadata entries below and above `object_index` from the active to the
scratch metadata block (two `flash_block_to_block_move` calls, the second
one only when entries above exist). -/
def sst_mblock_copy_remaining_object_meta (s : SstState) (object_index : Nat) :
    SstState × List Nat :=
  let scratch_block := sst_meta_cur_meta_scratch s
  let meta_block := sst_meta_cur_meta_active s
  let f1 := writeBlock s.flash scratch_block (fun b =>
    { b with ometa := copyEntries (s.flash meta_block).ometa b.ometa 0 object_index })
  if object_index + 1 < SST_NUM_ASSETS then
    let f2 := writeBlock f1 scratch_block (fun b =>
      { b with ometa := (copyEntries (f1 meta_block).ometa b.ometa
          (object_index + 1) SST_NUM_ASSETS) })
    ({ s with flash := f2 }, [scratch_block, scratch_block])
  else
    ({ s with flash := f1 }, [scratch_block])

/-- `sst_mblock_copy_remaining_block_meta` (sst_core.c:667-729): for a
non-zero logical block, update logical block 0's physical id to the scratch
metadata block and copy the block-metadata entries strictly between 0 and
`lblock`; in all cases copy the entries above `lblock`. -/
def sst_mblock_copy_remaining_block_meta (s : SstState) (lblock : Nat) :
    SstState × List Nat :=
  let scratch_block := sst_meta_cur_meta_scratch s
  let meta_block := sst_meta_cur_meta_active s
  if lblock ≠ SST_LOGICAL_DBLOCK0 then
    let block_meta := sst_meta_read_block_metadata s SST_LOGICAL_DBLOCK0
    let block_meta := { block_meta with phys_id := scratch_block }
    let u1 := sst_mblock_update_scratch_block_meta s SST_LOGICAL_DBLOCK0
      block_meta
    let u2 :=
      if 1 < lblock then
        let fmid := writeBlock u1.1.flash scratch_block (fun b =>
          { b with bmeta := (copyEntries (u1.1.flash meta_block).bmeta b.bmeta
              1 lblock) })
        ({ u1.1 with flash := fmid }, [scratch_block])
      else (u1.1, ([] : List Nat))
    let ftail := writeBlock u2.1.flash scratch_block (fun b =>
      { b with bmeta := (copyEntries (u2.1.flash meta_block).bmeta b.bmeta
          (lblock + 1) SST_NUM_ACTIVE_DBLOCKS) })
    ({ u2.1 with flash := ftail }, u1.2 ++ u2.2 ++ [scratch_block])
  else
    let ftail := writeBlock s.flash scratch_block (fun b =>
      { b with bmeta := (copyEntries (s.flash meta_block).bmeta b.bmeta
          (lblock + 1) SST_NUM_ACTIVE_DBLOCKS) })
    ({ s with flash := ftail }, [scratch_block])

/-- `sst_mblock_migrate_data_to_scratch` (sst_core.c:1124-1147): move the
logical-block-0 data bytes from the active to the scratch metadata block. -/
def sst_mblock_migrate_data_to_scratch (s : SstState) : SstState × List Nat :=
  let scratch_metablock := sst_meta_cur_meta_scratch s
  let current_metablock := sst_meta_cur_meta_active s
  let block_meta := sst_meta_read_block_metadata s SST_LOGICAL_DBLOCK0
  let data_size := u32sub (u32sub SST_BLOCK_SIZE block_meta.data_start)
    block_meta.free_size
  let f := moveDataBytes s.flash scratch_metablock block_meta.data_start
    current_metablock block_meta.data_start data_size
  ({ s with flash := f }, [scratch_metablock])

/-- `sst_dblock_update_scratch` (sst_core.c:495-533): write the new payload
bytes into the scratch data block of the logical block and carry over the
data before and after them from the current data block. -/
def sst_dblock_update_scratch (s : SstState) (cur_logical_block : Nat)
    (block_meta : BlockMeta) (payload : Nat → Nat) (offset size : Nat) :
    SstState × List Nat :=
  let scratch_block := sst_meta_cur_data_scratch s cur_logical_block
  let f1 := writeDataBytes s.flash scratch_block offset size payload
  let p2 :=
    if offset > block_meta.data_start then
      (moveDataBytes f1 scratch_block block_meta.data_start block_meta.phys_id
        block_meta.data_start (offset - block_meta.data_start), [scratch_block])
    else (f1, ([] : List Nat))
  let end_data := u32sub (u32sub SST_BLOCK_SIZE (u32add offset size))
    block_meta.free_size
  let f3 := moveDataBytes p2.1 scratch_block (u32add offset size)
    block_meta.phys_id (u32add offset size) end_data
  ({ s with flash := f3 }, [scratch_block] ++ p2.2 ++ [scratch_block])

/-- `sst_meta_erase_scratch_blocks` (sst_core.c:562-591): erase the scratch
metadata block, then (5 blocks total, so dedicated data blocks exist) the
scratch data block. -/
def sst_meta_erase_scratch_blocks (s : SstState) : SstState × List Nat :=
  let scratch_metablock := sst_meta_cur_meta_scratch s
  let f1 := writeBlock s.flash scratch_metablock (fun _ => erasedBlock)
  let scratch_datablock := sst_meta_cur_data_scratch s (SST_LOGICAL_DBLOCK0 + 1)
  let f2 := writeBlock f1 scratch_datablock (fun _ => erasedBlock)
  ({ s with flash := f2 }, [scratch_metablock, scratch_datablock])

/-- `sst_meta_write_scratch_meta_header` (sst_core.c:1044-1089),
no-encryption path: increment the swap count (`uint8`), reset it to 0 when it
reaches the erased value, then program the header in two flash writes with
the swap count last. -/
def sst_meta_write_scratch_meta_header (s : SstState) : SstState × List Nat :=
  let scratch_metablock := sst_meta_cur_meta_scratch s
  let c1 := (s.ctx.meta_block_header.active_swap_count + 1) % 256
  let c2 := if sst_meta_validate_swap_count c1 ≠ Err.success then 0 else c1
  let hdr := { s.ctx.meta_block_header with active_swap_count := c2 }
  let s0 := { s with ctx := { s.ctx with meta_block_header := hdr } }
  let f1 := writeBlock s0.flash scratch_metablock (fun b =>
      { b with header := { b.header with
          scratch_idx := hdr.scratch_idx, fs_version := hdr.fs_version } })
  let f2 := writeBlock f1 scratch_metablock (fun b =>
      { b with header := { b.header with active_swap_count := c2 } })
  ({ s0 with flash := f2 }, [scratch_metablock, scratch_metablock])

/-- `sst_meta_update_finalize` (sst_core.c:1157-1172): commit the scratch
header, swap the metablock roles in the context, erase the stale blocks. -/
def sst_meta_update_finalize (s : SstState) : SstState × List Nat :=
  let hw := sst_meta_write_scratch_meta_header s
  let s2 := sst_meta_swap_metablocks hw.1
  let er := sst_meta_erase_scratch_blocks s2
  (er.1, hw.2 ++ er.2)

/-- `sst_meta_reserve_object` (sst_core.c:1183-1207): first logical block
with enough free space receives the object; returns the partially filled
object metadata and the updated block metadata. -/
def sst_meta_reserve_object (s : SstState) (size : Nat) :
    Option (AssetMeta × BlockMeta) :=
  (List.range SST_NUM_ACTIVE_DBLOCKS).findSome? (fun i =>
    let block_meta := sst_meta_read_block_metadata s i
    if block_meta.free_size ≥ size then
      some ({ unique_id := 0, lblock := i,
              data_index := u32sub SST_BLOCK_SIZE block_meta.free_size,
              max_size := size, cur_size := 0 },
            { block_meta with free_size := block_meta.free_size - size })
    else none)

/-- `sst_get_free_object_index` (sst_core.c:438-461). -/
def sst_get_free_object_index (s : SstState) : Nat :=
  match (List.range SST_NUM_ASSETS).find? (fun i =>
      sst_utils_validate_uuid (sst_meta_read_object_meta s i).unique_id
        != Err.success) with
  | some i => i
  | Option.none => SST_METADATA_INVALID_INDEX

/-- All work of `sst_core_object_create` (sst_core.c:1234-1291) before the
call to `sst_meta_update_finalize`. -/
def sst_core_object_create_pre (s : SstState) (uuid size : Nat) :
    Except Err (SstState × List Nat) :=
  let reserved := sst_meta_reserve_object s size
  let object_index := sst_get_free_object_index s
  match reserved with
  | Option.none => Except.error Err.storageSystemFull
  | some (object_meta, block_meta) =>
      if object_index = SST_METADATA_INVALID_INDEX then
        Except.error Err.storageSystemFull
      else
        let object_meta := { object_meta with
          unique_id := uuid, cur_size := 0, max_size := size }
        Except.ok (opSeq (opSeq (opSeq (opSeq
          (sst_mblock_update_scratch_object_meta s object_index object_meta)
          (fun t => sst_mblock_update_scratch_block_meta t object_meta.lblock
            block_meta))
          (fun t => sst_mblock_copy_remaining_object_meta t object_index))
          (fun t => sst_mblock_copy_remaining_block_meta t object_meta.lblock))
          (fun t => sst_mblock_migrate_data_to_scratch t))

/-- `sst_core_object_create` (sst_core.c:1234-1291).  Returns the error code,
the final state and the log of physical blocks written (in order). -/
def sst_core_object_create (s : SstState) (uuid size : Nat) :
    Err × SstState × List Nat :=
  match sst_core_object_create_pre s uuid size with
  | Except.error e => (e, s, [])
  | Except.ok (s5, l) =>
      let fin := sst_meta_update_finalize s5
      (Err.success, fin.1, l ++ fin.2)

/-- All work of `sst_core_object_write` (sst_core.c:1293-1415, no-encryption
path) before the call to `sst_meta_update_finalize`.  The early error
returns of the source are flash-read failures, which cannot occur in-model. -/
def sst_core_object_write_pre (s : SstState) (asset_handle : Nat)
    (payload : Nat → Nat) (offset size : Nat) : SstState × List Nat :=
  let object_index := sst_utils_extract_index_from_handle asset_handle
  let object_meta := sst_meta_read_object_meta s object_index
  let block_meta := sst_meta_read_block_metadata s object_meta.lblock
  let object_meta := { object_meta with cur_size := u32add offset size }
  let off := u32add object_meta.data_index offset
  let cur_phys_block := block_meta.phys_id
  opSeq (opSeq (opSeq (opSeq (opSeq
    (sst_dblock_update_scratch s object_meta.lblock block_meta payload off size)
    (fun t => sst_mblock_update_scratch_block_meta
      (sst_meta_set_data_scratch t cur_phys_block object_meta.lblock)
      object_meta.lblock
      { block_meta with
        phys_id := sst_meta_cur_data_scratch t object_meta.lblock }))
    (fun t => sst_mblock_update_scratch_object_meta t object_index object_meta))
    (fun t => sst_mblock_copy_remaining_block_meta t object_meta.lblock))
    (fun t => sst_mblock_copy_remaining_object_meta t object_index))
    (fun t =>
      if object_meta.lblock ≠ SST_LOGICAL_DBLOCK0 then
        sst_mblock_migrate_data_to_scratch t
      else (t, ([] : List Nat)))

/-- `sst_core_object_write` (sst_core.c:1293-1415, no-encryption path).
The source never compares the uuid embedded in the handle with the stored
entry; only the index half of the handle is used. -/
def sst_core_object_write (s : SstState) (asset_handle : Nat)
    (payload : Nat → Nat) (offset size : Nat) : Err × SstState × List Nat :=
  let pre := sst_core_object_write_pre s asset_handle payload offset size
  let fin := sst_meta_update_finalize pre.1
  (Err.success, fin.1, pre.2 ++ fin.2)

/-- `sst_compact_dblock` (sst_core.c:1430-1502). -/
def sst_compact_dblock (s : SstState) (lblock obj_size src_offset dst_offset
    size : Nat) : SstState × List Nat :=
  let block_meta := sst_meta_read_block_metadata s lblock
  let block_meta := { block_meta with
    free_size := u32add block_meta.free_size obj_size }
  let scratch_dblock_id := sst_meta_cur_data_scratch s lblock
  let m1 :=
    if size > 0 then
      (moveDataBytes s.flash scratch_dblock_id dst_offset block_meta.phys_id
        src_offset size, [scratch_dblock_id])
    else (s.flash, ([] : List Nat))
  let m2 :=
    if dst_offset > block_meta.data_start then
      (moveDataBytes m1.1 scratch_dblock_id block_meta.data_start
        block_meta.phys_id block_meta.data_start
        (dst_offset - block_meta.data_start), [scratch_dblock_id])
    else (m1.1, ([] : List Nat))
  opSeq (opSeq ({ s with flash := m2.1 }, m1.2 ++ m2.2)
    (fun t => sst_mblock_update_scratch_block_meta
      (sst_meta_set_data_scratch t block_meta.phys_id lblock) lblock
      { block_meta with phys_id := scratch_dblock_id }))
    (fun t => sst_mblock_copy_remaining_block_meta t lblock)

/-- One iteration of the object-metadata loop of `sst_core_object_delete`
(sst_core.c:1543-1579): the accumulator carries the state, the write log,
`src_offset` and `nbr_bytes_to_move`. -/
def sst_delete_loop_step (del_obj_index del_obj_lblock del_obj_data_index
    del_obj_max_size : Nat) (acc : SstState × List Nat × Nat × Nat)
    (obj_idx : Nat) : SstState × List Nat × Nat × Nat :=
  if obj_idx = del_obj_index then acc
  else
    let m := sst_meta_read_object_meta acc.1 obj_idx
    let cond := m.lblock = del_obj_lblock ∧ m.data_index > del_obj_data_index
    let src_offset :=
      if cond ∧ acc.2.2.1 > m.data_index then m.data_index else acc.2.2.1
    let nbr :=
      if cond then u32add acc.2.2.2 m.max_size else acc.2.2.2
    let m :=
      if cond then { m with data_index := u32sub m.data_index del_obj_max_size }
      else m
    let u := sst_mblock_update_scratch_object_meta acc.1 obj_idx m
    (u.1, acc.2.1 ++ u.2, src_offset, nbr)

/-- The update the delete loop applies to a surviving object-metadata entry:
entries of the deleted object's logical block sitting above the deleted data
move down by the deleted object's `max_size` (uint32 subtraction). -/
def deleteShift (del_obj_lblock del_obj_data_index del_obj_max_size : Nat)
    (m : AssetMeta) : AssetMeta :=
  if m.lblock = del_obj_lblock ∧ m.data_index > del_obj_data_index then
    { m with data_index := u32sub m.data_index del_obj_max_size }
  else m

/-- All work of `sst_core_object_delete` (sst_core.c:1504-1594) before the
call to `sst_meta_update_finalize`. -/
def sst_core_object_delete_pre (s : SstState) (asset_handle : Nat) :
    Except Err (SstState × List Nat) :=
  let del_obj_index := sst_utils_extract_index_from_handle asset_handle
  let object_meta := sst_meta_read_object_meta s del_obj_index
  if sst_utils_validate_uuid object_meta.unique_id ≠ Err.success then
    Except.error Err.assetNotFound
  else
    let del_obj_lblock := object_meta.lblock
    let del_obj_data_index := object_meta.data_index
    let del_obj_max_size := object_meta.max_size
    let cleared := { object_meta with
      unique_id := SST_INVALID_UUID, lblock := 0, max_size := 0, cur_size := 0 }
    let u1 := sst_mblock_update_scratch_object_meta s del_obj_index cleared
    let loop := (List.range SST_NUM_ASSETS).foldl
      (sst_delete_loop_step del_obj_index del_obj_lblock del_obj_data_index
        del_obj_max_size)
      (u1.1, u1.2, SST_BLOCK_SIZE, 0)
    Except.ok (opSeq (loop.1, loop.2.1)
      (fun t => sst_compact_dblock t del_obj_lblock del_obj_max_size
        loop.2.2.1 del_obj_data_index loop.2.2.2))

/-- `sst_core_object_delete` (sst_core.c:1504-1594).  Only the index half of
the handle is used; the stored entry must merely be in use. -/
def sst_core_object_delete (s : SstState) (asset_handle : Nat) :
    Err × SstState × List Nat :=
  match sst_core_object_delete_pre s asset_handle with
  | Except.error e => (e, s, [])
  | Except.ok (s3, l) =>
      let fin := sst_meta_update_finalize s3
      (Err.success, fin.1, l ++ fin.2)

/-- `sst_core_object_read` (sst_core.c:1596-1646): the only core operation
that cross-checks the uuid embedded in the handle against the stored entry.
It performs no flash mutation (its only flash accesses are reads), so its
model returns just the error code. -/
def sst_core_object_read (s : SstState) (asset_handle offset size : Nat) :
    Err :=
  let object_index := sst_utils_extract_index_from_handle asset_handle
  let tmp_metadata := sst_meta_read_object_meta s object_index
  let uuid := sst_utils_extract_uuid_from_handle asset_handle
  if uuid ≠ tmp_metadata.unique_id then Err.invalidHandle
  else if sst_utils_check_contained_in 0 tmp_metadata.cur_size offset size
      ≠ Err.success then Err.paramError
  else Err.success

/-- A small well-formed concrete state used to exercise the operations:
active metadata in physical block 0, scratch metadata block 1, scratch data
block 2, and two live objects (uuids 5 and 6) in logical block 1, tiled from
offset 0. -/
def exampleState : SstState where
  flash := fun b =>
    if b = 0 then
      { header := ⟨2, 1, 5⟩
        bmeta := [⟨0, 220, 3876⟩, ⟨3, 0, 4084⟩, ⟨4, 0, 4096⟩]
        ometa := [⟨5, 1, 0, 4, 4⟩, ⟨6, 1, 4, 8, 2⟩] ++
          List.replicate 8 ⟨0, 0, 0, 0, 0⟩
        data := fun _ => 0xFF }
    else erasedBlock
  ctx := ⟨0, 1, ⟨2, 1, 5⟩⟩

/-- A second well-formed concrete state whose two live objects (uuids 5 and
6) sit in logical block 0, whose data region lives inside the active
metadata block itself: the data starts at offset 220 and the objects tile
the region from there. -/
def exampleState0 : SstState where
  flash := fun b =>
    if b = 0 then
      { header := ⟨2, 1, 5⟩
        bmeta := [⟨0, 220, 3864⟩, ⟨3, 0, 4096⟩, ⟨4, 0, 4096⟩]
        ometa := [⟨5, 0, 220, 4, 4⟩, ⟨6, 0, 224, 8, 2⟩] ++
          List.replicate 8 ⟨0, 0, 0, 0, 0⟩
        data := fun _ => 0xFF }
    else erasedBlock
  ctx := ⟨0, 1, ⟨2, 1, 5⟩⟩

/-- Frame property of one mutating step starting from `s`: every logged write
targets a block in `tg`, the flash outside `tg` is untouched, and the ids of
the active and scratch metablocks in the context are unchanged. -/
def StepFrame (tg : List Nat) (s : SstState) (r : SstState × List Nat) : Prop :=
  (∀ b ∈ r.2, b ∈ tg) ∧
  (∀ b, b ∉ tg → r.1.flash b = s.flash b) ∧
  r.1.ctx.active_metablock = s.ctx.active_metablock ∧
  r.1.ctx.scratch_metablock = s.ctx.scratch_metablock

/-- An object-metadata entry holds a live object of logical block `b`. -/
def inBlock (m : AssetMeta) (b : Nat) : Prop :=
  m.unique_id ≠ SST_INVALID_UUID ∧ m.lblock = b

instance (m : AssetMeta) (b : Nat) : Decidable (inBlock m b) := by
  unfold inBlock
  infer_instance

/-- Sum of `max_size` over the live objects of block `b` (in the active
metadata of `s`) whose `data_index` lies strictly below `x`. -/
def sumMaxBelow (s : SstState) (b x : Nat) : Nat :=
  ∑ j in Finset.range SST_NUM_ASSETS,
    if inBlock (sst_meta_read_object_meta s j) b ∧
       (sst_meta_read_object_meta s j).data_index < x then
      (sst_meta_read_object_meta s j).max_size
    else 0

/-- Total `max_size` of the live objects of block `b`. -/
def sumMaxAll (s : SstState) (b : Nat) : Nat :=
  ∑ j in Finset.range SST_NUM_ASSETS,
    if inBlock (sst_meta_read_object_meta s j) b then
      (sst_meta_read_object_meta s j).max_size
    else 0

/-- The claim's contiguity property for logical block `b`: every live object
of `b` sits at `data_start` plus the total size of the live objects of `b`
below it; ordered by `data_index` the objects therefore tile the block from
`data_start` without gaps. -/
def Contiguous (s : SstState) (b : Nat) : Prop :=
  ∀ j, j < SST_NUM_ASSETS →
    inBlock (sst_meta_read_object_meta s j) b →
    (sst_meta_read_object_meta s j).data_index =
      (sst_meta_read_block_metadata s b).data_start +
        sumMaxBelow s b (sst_meta_read_object_meta s j).data_index

end Core

namespace SST

/-- C10: `sst_utils_check_contained_in` decides exact (unbounded) containment:
for all `uint32` arguments it succeeds iff `subset_start ≥ superset_start` and
`subset_start + subset_size ≤ superset_start + superset_size` hold in exact
integer arithmetic; the 64-bit promotion makes wrap-around impossible. -/
theorem check_contained_in_exact
    (a b c d : Nat) (ha : a < 2 ^ 32) (hb : b < 2 ^ 32)
    (hc : c < 2 ^ 32) (hd : d < 2 ^ 32) :
    sst_utils_check_contained_in a b c d = Err.success ↔
      a ≤ c ∧ c + d ≤ a + b := by
  have h1 : (c + d) % 2 ^ 64 = c + d := Nat.mod_eq_of_lt (by omega)
  have h2 : (a + b) % 2 ^ 64 = a + b := Nat.mod_eq_of_lt (by omega)
  unfold sst_utils_check_contained_in
  rw [h1, h2]
  split
  · rename_i h
    constructor
    · intro hfalse; cases hfalse
    · intro hgood; omega
  · rename_i h
    constructor
    · intro _; omega
    · intro _; rfl

/-- Witness for C10 at a concrete input. -/
theorem check_contained_in_exact_witness :
    sst_utils_check_contained_in 4 10 6 3 = Err.success ↔ 4 ≤ 6 ∧ 6 + 3 ≤ 4 + 10 :=
  check_contained_in_exact 4 10 6 3 (by decide) (by decide) (by decide) (by decide)

/-- C1: metadata-block election on SSE boot.  When both headers are valid
(correct fs version, swap count not the erased value), the elected block
follows the rollover rule exactly as the claim states it: a block whose
swap count is `0` is elected unless the other block counts `1` (in which
case the strictly-higher-count rule applies), and otherwise the strictly
higher count wins with block 0 chosen on equality.  A header whose swap
count equals the erased value `0xFF` is invalid, so the other block wins. -/
theorem sst_metablock_election_correct
    (meta0 meta1 : MetaHeader)
    (hv0 : meta0.fs_version = SST_SUPPORTED_VERSION)
    (hv1 : meta1.fs_version = SST_SUPPORTED_VERSION) :
    (meta0.active_swap_count ≠ 0xFF → meta1.active_swap_count ≠ 0xFF →
      sst_init_get_active_metablock meta0 meta1 =
        Except.ok (sst_meta_latest_meta_block meta0 meta1,
          SST_OTHER_META_BLOCK (sst_meta_latest_meta_block meta0 meta1)) ∧
      (((meta0.active_swap_count = 0 ∧ meta1.active_swap_count ≠ 1) ∨
        (meta1.active_swap_count = 0 ∧ meta0.active_swap_count ≠ 1)) →
        (if sst_meta_latest_meta_block meta0 meta1 = SST_METADATA_BLOCK0 then
           meta0.active_swap_count else meta1.active_swap_count) = 0) ∧
      (meta0.active_swap_count = 0 ∧ meta1.active_swap_count = 1 →
        sst_meta_latest_meta_block meta0 meta1 = SST_METADATA_BLOCK1) ∧
      (meta1.active_swap_count = 0 ∧ meta0.active_swap_count = 1 →
        sst_meta_latest_meta_block meta0 meta1 = SST_METADATA_BLOCK0) ∧
      (meta0.active_swap_count ≠ 0 → meta1.active_swap_count ≠ 0 →
        sst_meta_latest_meta_block meta0 meta1 =
          if meta0.active_swap_count < meta1.active_swap_count then
            SST_METADATA_BLOCK1 else SST_METADATA_BLOCK0)) ∧
    (meta0.active_swap_count = 0xFF → meta1.active_swap_count ≠ 0xFF →
      sst_init_get_active_metablock meta0 meta1 =
        Except.ok (SST_METADATA_BLOCK1, SST_METADATA_BLOCK0)) ∧
    (meta1.active_swap_count = 0xFF → meta0.active_swap_count ≠ 0xFF →
      sst_init_get_active_metablock meta0 meta1 =
        Except.ok (SST_METADATA_BLOCK0, SST_METADATA_BLOCK1)) := by
  have hval0 : sst_meta_validate_header_meta meta0 =
      (if meta0.active_swap_count = SST_FLASH_DEFAULT_VAL then Err.systemError
       else Err.success) := by
    unfold sst_meta_validate_header_meta sst_meta_validate_fs_version
      sst_meta_validate_swap_count
    rw [hv0]
    simp
  have hval1 : sst_meta_validate_header_meta meta1 =
      (if meta1.active_swap_count = SST_FLASH_DEFAULT_VAL then Err.systemError
       else Err.success) := by
    unfold sst_meta_validate_header_meta sst_meta_validate_fs_version
      sst_meta_validate_swap_count
    rw [hv1]
    simp
  have hL : sst_meta_latest_meta_block meta0 meta1 =
      if meta1.active_swap_count = 0 ∧ meta0.active_swap_count ≠ 1 then
        SST_METADATA_BLOCK1
      else if meta0.active_swap_count = 0 ∧ meta1.active_swap_count ≠ 1 then
        SST_METADATA_BLOCK0
      else if meta0.active_swap_count < meta1.active_swap_count then
        SST_METADATA_BLOCK1
      else SST_METADATA_BLOCK0 := rfl
  simp only [SST_METADATA_BLOCK0, SST_METADATA_BLOCK1] at hL
  refine ⟨?_, ?_, ?_⟩
  · intro h0 h1
    have e0 : sst_meta_validate_header_meta meta0 = Err.success := by
      rw [hval0]; simp [SST_FLASH_DEFAULT_VAL, h0]
    have e1 : sst_meta_validate_header_meta meta1 = Err.success := by
      rw [hval1]; simp [SST_FLASH_DEFAULT_VAL, h1]
    refine ⟨?_, ?_, ?_, ?_, ?_⟩
    · unfold sst_init_get_active_metablock
      simp [e0, e1]
    · intro hz
      rw [hL]
      by_cases p1 : meta1.active_swap_count = 0 ∧ meta0.active_swap_count ≠ 1
      · simp [p1, SST_METADATA_BLOCK0, p1.1]
      · by_cases p2 : meta0.active_swap_count = 0 ∧ meta1.active_swap_count ≠ 1
        · simp [p1, p2, SST_METADATA_BLOCK0, p2.1]
        · exfalso; omega
    · rintro ⟨hz0, ho1⟩
      rw [hL]
      simp only [SST_METADATA_BLOCK1]
      split_ifs <;> omega
    · rintro ⟨hz1, ho0⟩
      rw [hL]
      simp only [SST_METADATA_BLOCK0]
      split_ifs <;> omega
    · intro hn0 hn1
      rw [hL]
      simp only [SST_METADATA_BLOCK0, SST_METADATA_BLOCK1]
      split_ifs <;> omega
  · intro h0 h1
    have e0 : sst_meta_validate_header_meta meta0 ≠ Err.success := by
      rw [hval0]; simp [SST_FLASH_DEFAULT_VAL, h0]
    have e1 : sst_meta_validate_header_meta meta1 = Err.success := by
      rw [hval1]; simp [SST_FLASH_DEFAULT_VAL, h1]
    unfold sst_init_get_active_metablock
    simp [e0, e1]
  · intro h1 h0
    have e1 : sst_meta_validate_header_meta meta1 ≠ Err.success := by
      rw [hval1]; simp [SST_FLASH_DEFAULT_VAL, h1]
    have e0 : sst_meta_validate_header_meta meta0 = Err.success := by
      rw [hval0]; simp [SST_FLASH_DEFAULT_VAL, h0]
    unfold sst_init_get_active_metablock
    simp [e0, e1]

/-- Witness for C1: with valid headers counting 3 and 7, block 1 is elected
and block 0 becomes scratch. -/
theorem sst_metablock_election_witness :
    sst_init_get_active_metablock ⟨2, 1, 3⟩ ⟨2, 1, 7⟩ =
      Except.ok (SST_METADATA_BLOCK1, SST_METADATA_BLOCK0) := by
  have h := (sst_metablock_election_correct ⟨2, 1, 3⟩ ⟨2, 1, 7⟩ rfl rfl).1
    (by decide) (by decide)
  have he : sst_meta_latest_meta_block ⟨2, 1, 3⟩ ⟨2, 1, 7⟩ =
      SST_METADATA_BLOCK1 := by decide
  simpa [he] using h.1

end SST

namespace Boot

/-- C2: `boot_status_source` realises exactly the normative four-row mapping,
rows matched in table order: primary GOOD + copy-done SET gives NONE; primary
GOOD + copy-done UNSET gives PRIMARY; scratch GOOD (primary anything) gives
SCRATCH; primary UNSET + copy-done UNSET gives PRIMARY; NONE otherwise. -/
theorem boot_status_source_table
    (pm sm : BootMagic) (pc sc pio sio : BootFlag) :
    boot_status_source ⟨pm, pc, pio⟩ ⟨sm, sc, sio⟩ =
      (if pm = BootMagic.good ∧ pc = BootFlag.set then StatusSource.none
       else if pm = BootMagic.good ∧ pc = BootFlag.unset then
         StatusSource.primarySlot
       else if sm = BootMagic.good then StatusSource.scratch
       else if pm = BootMagic.unset ∧ pc = BootFlag.unset then
         StatusSource.primarySlot
       else StatusSource.none) := by
  cases pm <;> cases sm <;> cases pc <;> rfl

/-- C6 (amended): with no swap in progress and a requested swap type of TEST,
PERM or REVERT, an invalid secondary slot demotes the swap type to FAIL and
the platform then boots the primary slot; the secondary slot is erased
exactly when its header magic is present but the image fails the
magic/hash/signature validation — an image rejected because its header magic
is erased, or because it carries the non-bootable flag, is not erased. -/
theorem boot_swap_demotes_to_fail
    (requested : BootSwapType) (secondary : SlotImage)
    (hreq : requested = BootSwapType.test ∨ requested = BootSwapType.perm ∨
      requested = BootSwapType.revert)
    (hmagic : secondary.headerMagicErased = true → secondary.ihMagicOk = false)
    (hinvalid : secondary.headerMagicErased = true ∨
      secondary.nonBootable = true ∨ secondary.ihMagicOk = false ∨
      secondary.imageCheckOk = false) :
    (boot_validated_swap_type requested secondary).1 = BootSwapType.fail ∧
    ((boot_validated_swap_type requested secondary).2 = true ↔
      (secondary.headerMagicErased = false ∧ secondary.nonBootable = false)) ∧
    boot_go_final_slot BootSwapType.fail = some BOOT_PRIMARY_SLOT := by
  obtain ⟨e, m, n, c⟩ := secondary
  rcases hreq with h | h | h <;> subst h <;>
    cases e <;> cases m <;> cases n <;> cases c <;>
    simp_all [boot_validated_swap_type, boot_validate_slot,
      BOOT_SECONDARY_SLOT, boot_go_final_slot]

/-- Witness for C6: a TEST request with a secondary slot whose signature
check fails is demoted to FAIL, the slot is erased, and the primary slot
boots. -/
theorem boot_swap_demotes_to_fail_witness :
    (boot_validated_swap_type BootSwapType.test ⟨false, true, false, false⟩).1 =
      BootSwapType.fail ∧
    ((boot_validated_swap_type BootSwapType.test
        ⟨false, true, false, false⟩).2 = true ↔ (false = false ∧ false = false)) ∧
    boot_go_final_slot BootSwapType.fail = some BOOT_PRIMARY_SLOT :=
  boot_swap_demotes_to_fail BootSwapType.test ⟨false, true, false, false⟩
    (Or.inl rfl) (by intro h; cases h) (Or.inr (Or.inr (Or.inr rfl)))

/-- Counterexample for C6 as stated: a secondary image with valid header
magic and passing image check but flagged non-bootable is demoted to FAIL
while its slot is NOT erased, refuting the claim that an invalid (here:
not bootable) secondary slot is erased. -/
theorem boot_swap_nonbootable_not_erased :
    (boot_validated_swap_type BootSwapType.test ⟨false, true, true, true⟩) =
      (BootSwapType.fail, false) := by
  decide

/-- C9 (amended): in the multi-slot variant for the platform's two slots,
with every candidate's packed version nonzero, the walked prefix of the boot
sequence consists of exactly the candidate slots (valid header magic and
trailer magic good or image-ok set) in stable descending packed-version
order, and the boot slot is the first of them that passes validation
(`BOOT_EBADIMAGE` when none does).  Without the nonzero-version hypothesis a
candidate of version 0 can be displaced by the zero placeholder entry of a
non-candidate slot. -/
theorem boot_go_multi_newest_first (s0 s1 : MultiSlot)
    (h0 : slotCandidate s0 = true → 0 < boot_get_version_number s0.version)
    (h1 : slotCandidate s1 = true → 0 < boot_get_version_number s1.version) :
    ((boot_get_boot_sequence s0 s1).1.take (boot_get_boot_sequence s0 s1).2
      = specBootOrder s0 s1) ∧
    boot_go_multi s0 s1 =
      (match (specBootOrder s0 s1).find? (fun i =>
          (boot_validate_slot i
            ((if i = 0 then s0 else s1).toSlotImage)).1 == 0) with
       | some slot => Except.ok slot
       | Option.none => Except.error BOOT_EBADIMAGE) := by
  by_cases c0 : slotCandidate s0 <;> by_cases c1 : slotCandidate s1
  · by_cases hv : boot_get_version_number s0.version <
        boot_get_version_number s1.version
    · constructor
      · simp [boot_get_boot_sequence, specBootOrder, c0, c1, hv]
      · simp [boot_go_multi, boot_get_boot_sequence, specBootOrder, c0, c1, hv]
    · constructor
      · simp [boot_get_boot_sequence, specBootOrder, c0, c1, hv]
      · simp [boot_go_multi, boot_get_boot_sequence, specBootOrder, c0, c1, hv]
  · have hv : ¬ boot_get_version_number s0.version < 0 := by omega
    constructor
    · simp [boot_get_boot_sequence, specBootOrder, c0, c1, hv]
    · simp [boot_go_multi, boot_get_boot_sequence, specBootOrder, c0, c1, hv]
  · have hv : 0 < boot_get_version_number s1.version := h1 c1
    constructor
    · simp [boot_get_boot_sequence, specBootOrder, c0, c1, hv]
    · simp [boot_go_multi, boot_get_boot_sequence, specBootOrder, c0, c1, hv]
  · constructor
    · simp [boot_get_boot_sequence, specBootOrder, c0, c1]
    · simp [boot_go_multi, boot_get_boot_sequence, specBootOrder, c0, c1]

/-- Witness for C9 (amended) at a concrete input: two candidates with
versions 2.0.0+0 and 1.0.0+0; the sequence walks slot 0 first and slot 0
(which validates) boots. -/
theorem boot_go_multi_newest_first_witness :
    boot_go_multi
      ⟨true, BootMagic.good, BootFlag.unset, ⟨2, 0, 0, 0⟩, false, false, true⟩
      ⟨true, BootMagic.good, BootFlag.unset, ⟨1, 0, 0, 0⟩, false, false, true⟩
      = Except.ok 0 := by
  have h := (boot_go_multi_newest_first
    ⟨true, BootMagic.good, BootFlag.unset, ⟨2, 0, 0, 0⟩, false, false, true⟩
    ⟨true, BootMagic.good, BootFlag.unset, ⟨1, 0, 0, 0⟩, false, false, true⟩
    (by intro _; decide) (by intro _; decide)).2
  simpa using h

/-- Counterexample for C9 as stated: slot 0 holds no valid image (header
magic erased) and slot 1 is a perfectly valid candidate whose packed version
is 0.  The claim's candidate list is exactly `[1]` and slot 1 passes
validation, so the claim predicts slot 1 boots; the code instead walks the
zero placeholder entry of non-candidate slot 0 (the `qsort` on the
zero-initialised array leaves it first) and fails with `BOOT_EBADIMAGE`. -/
theorem boot_go_multi_version0_counterexample :
    slotCandidate ⟨false, BootMagic.bad, BootFlag.unset, ⟨0, 0, 0, 0⟩,
      true, false, false⟩ = false ∧
    slotCandidate ⟨true, BootMagic.good, BootFlag.unset, ⟨0, 0, 0, 0⟩,
      false, false, true⟩ = true ∧
    (boot_validate_slot 1
      (MultiSlot.toSlotImage ⟨true, BootMagic.good, BootFlag.unset,
        ⟨0, 0, 0, 0⟩, false, false, true⟩)).1 = 0 ∧
    boot_go_multi
      ⟨false, BootMagic.bad, BootFlag.unset, ⟨0, 0, 0, 0⟩, true, false, false⟩
      ⟨true, BootMagic.good, BootFlag.unset, ⟨0, 0, 0, 0⟩, false, false, true⟩
      = Except.error BOOT_EBADIMAGE := by
  exact ⟨rfl, rfl, rfl, rfl⟩

end Boot

namespace Nv

/-- One operation neither decreases any counter nor removes the watermark,
provided the watermark is present. -/
theorem nvStep_monotone (s : NvState) (op : NvOp) (i : Nat)
    (hw : s.watermark = NV_COUNTERS_INITIALIZED) :
    tfm_plat_read_nv_counter s i ≤ tfm_plat_read_nv_counter (nvStep s op) i ∧
    (nvStep s op).watermark = NV_COUNTERS_INITIALIZED := by
  cases op with
  | init =>
      simp [nvStep, tfm_plat_init_nv_counter, hw, tfm_plat_read_nv_counter]
  | increment j =>
      by_cases hm : s.counters j = UINT32_MAX
      · simp [nvStep, tfm_plat_increment_nv_counter, hm,
          tfm_plat_read_nv_counter, hw]
      · by_cases hij : i = j
        · subst hij
          simp [nvStep, tfm_plat_increment_nv_counter, hm,
            tfm_plat_read_nv_counter, hw]
        · simp [nvStep, tfm_plat_increment_nv_counter, hm,
            tfm_plat_read_nv_counter, hw, hij]

/-- C8 (amended): starting from any initialized counter sector (watermark
present), over every sequence of init and increment operations a counter read
never decreases; and an increment of a counter holding `UINT32_MAX` returns
`TFM_PLAT_ERR_MAX_VALUE` and leaves the whole sector (every stored counter)
unchanged.  The watermark hypothesis is needed: the very first
initialization of an erased sector resets the counters to 0 (see the
counterexample). -/
theorem nv_counter_monotone (s : NvState) (ops : List NvOp) (i : Nat)
    (hw : s.watermark = NV_COUNTERS_INITIALIZED) :
    tfm_plat_read_nv_counter s i ≤ tfm_plat_read_nv_counter (nvRun s ops) i ∧
    (tfm_plat_read_nv_counter s i = UINT32_MAX →
      tfm_plat_increment_nv_counter s i = (PlatErr.maxValue, s)) := by
  constructor
  · induction ops generalizing s with
    | nil => exact Nat.le_refl _
    | cons op rest ih =>
        have h := nvStep_monotone s op i hw
        calc tfm_plat_read_nv_counter s i
            ≤ tfm_plat_read_nv_counter (nvStep s op) i := h.1
          _ ≤ tfm_plat_read_nv_counter (nvRun (nvStep s op) rest) i :=
              ih (nvStep s op) h.2
  · intro hm
    simp [tfm_plat_increment_nv_counter, tfm_plat_read_nv_counter] at hm ⊢
    simp [hm]

/-- Witness for C8 (amended): a concrete initialized sector, a concrete
trace, and a concrete at-max counter. -/
theorem nv_counter_monotone_witness :
    tfm_plat_read_nv_counter ⟨NV_COUNTERS_INITIALIZED, fun _ => UINT32_MAX⟩ 0 ≤
      tfm_plat_read_nv_counter
        (nvRun ⟨NV_COUNTERS_INITIALIZED, fun _ => UINT32_MAX⟩
          [NvOp.init, NvOp.increment 0]) 0 ∧
    (tfm_plat_read_nv_counter ⟨NV_COUNTERS_INITIALIZED, fun _ => UINT32_MAX⟩ 0 =
        UINT32_MAX →
      tfm_plat_increment_nv_counter
        ⟨NV_COUNTERS_INITIALIZED, fun _ => UINT32_MAX⟩ 0 =
        (PlatErr.maxValue, ⟨NV_COUNTERS_INITIALIZED, fun _ => UINT32_MAX⟩)) :=
  nv_counter_monotone ⟨NV_COUNTERS_INITIALIZED, fun _ => UINT32_MAX⟩
    [NvOp.init, NvOp.increment 0] 0 rfl

/-- Counterexample for C8 as stated: on a freshly erased sector (no
watermark, counters read `0xFFFFFFFF`) a read before and after a single
`tfm_plat_init_nv_counter` call decreases from `UINT32_MAX` to `0`, so over
sequences of init/increment operations reads can decrease. -/
theorem nv_read_decreases_across_first_init :
    tfm_plat_read_nv_counter erasedNvState 0 = UINT32_MAX ∧
    tfm_plat_read_nv_counter (nvRun erasedNvState [NvOp.init]) 0 = 0 ∧
    (0 : Nat) < UINT32_MAX := by
  refine ⟨rfl, ?_, by decide⟩
  show tfm_plat_read_nv_counter (nvStep erasedNvState NvOp.init) 0 = 0
  simp [nvStep, tfm_plat_init_nv_counter, erasedNvState,
    NV_COUNTERS_INITIALIZED, tfm_plat_read_nv_counter]

end Nv

namespace Am

open SST

/-- C4: owner isolation at the storage API.  Whenever the policy check denies
the caller access to a uuid — for the request types the operations use — all
six operations return the very `ASSET_NOT_FOUND` code; and for a uuid with no
policy entry at all the policy check denies every request type, so an
existing asset of another owner and a nonexistent asset are indistinguishable
by the returned error and no distinct permission-denied code exists. -/
theorem sst_am_owner_isolation
    (callerIsSecure : Bool) (db : PolicyDb) (app_id handle : Nat)
    (iovecOk hdlOk : Bool) (offset size : Nat) (lower : Err)
    (hread : sst_am_get_db_entry callerIsSecure db app_id
      (sst_utils_extract_uuid_from_handle handle) SST_PERM_READ = Option.none)
    (hwrite : sst_am_get_db_entry callerIsSecure db app_id
      (sst_utils_extract_uuid_from_handle handle) SST_PERM_WRITE = Option.none)
    (hall : sst_am_get_db_entry callerIsSecure db app_id
      (sst_utils_extract_uuid_from_handle handle) allPerms = Option.none) :
    sst_am_get_handle callerIsSecure db app_id
      (sst_utils_extract_uuid_from_handle handle) hdlOk lower =
      Err.assetNotFound ∧
    sst_am_create callerIsSecure db app_id
      (sst_utils_extract_uuid_from_handle handle) lower = Err.assetNotFound ∧
    sst_am_read callerIsSecure db app_id handle iovecOk lower =
      Err.assetNotFound ∧
    sst_am_write callerIsSecure db app_id handle iovecOk offset size lower =
      Err.assetNotFound ∧
    sst_am_delete callerIsSecure db app_id handle lower = Err.assetNotFound ∧
    sst_am_get_attributes callerIsSecure db app_id handle true lower =
      Err.assetNotFound ∧
    (∀ uuid2 request_type, sst_am_lookup_db_entry db uuid2 = Option.none →
      sst_am_get_db_entry callerIsSecure db app_id uuid2 request_type =
        Option.none) := by
  refine ⟨?_, ?_, ?_, ?_, ?_, ?_, ?_⟩
  · simp [sst_am_get_handle, hall]
  · simp [sst_am_create, hwrite]
  · simp [sst_am_read, sst_am_get_db_entry_by_hdl, hread]
  · simp [sst_am_write, sst_am_get_db_entry_by_hdl, hwrite]
  · simp [sst_am_delete, sst_am_get_db_entry_by_hdl, hwrite]
  · simp [sst_am_get_attributes, sst_am_get_db_entry_by_hdl, hall]
  · intro uuid2 request_type habsent
    unfold sst_am_get_db_entry
    simp only [habsent]
    split <;> rfl

/-- Witness for C4: a concrete policy database owning uuid 5 by app 9 alone;
caller app 10 gets `ASSET_NOT_FOUND` from reads and writes of app 9's
existing asset, exactly as for a nonexistent uuid. -/
theorem sst_am_owner_isolation_witness :
    sst_am_read false ⟨[⟨5, 16, 1, 0⟩], [⟨9, 7⟩]⟩ 10
      (sst_utils_compose_handle 5 0) true Err.success = Err.assetNotFound ∧
    sst_am_write false ⟨[⟨5, 16, 1, 0⟩], [⟨9, 7⟩]⟩ 10
      (sst_utils_compose_handle 5 0) true 0 4 Err.success =
      Err.assetNotFound := by
  have h := sst_am_owner_isolation false ⟨[⟨5, 16, 1, 0⟩], [⟨9, 7⟩]⟩ 10
    (sst_utils_compose_handle 5 0) true true 0 4 Err.success
    (by decide) (by decide) (by decide)
  exact ⟨h.2.2.1, h.2.2.2.1⟩

end Am

namespace Core

open SST

theorem writeBlock_ne (f : Flash) (block_id b : Nat) (g : Block → Block)
    (h : b ≠ block_id) : writeBlock f block_id g b = f b := by
  simp [writeBlock, h]

theorem writeBlock_eq (f : Flash) (block_id : Nat) (g : Block → Block) :
    writeBlock f block_id g block_id = g (f block_id) := by
  simp [writeBlock]

theorem u32sub_eq_sub {a b : Nat} (hb : b ≤ a) (ha : a < U32) :
    u32sub a b = a - b := by
  unfold u32sub U32 at *
  have h1 : a % 2 ^ 32 = a := Nat.mod_eq_of_lt ha
  have h2 : b % 2 ^ 32 = b := Nat.mod_eq_of_lt (lt_of_le_of_lt hb ha)
  rw [h1, h2]
  omega

theorem u32add_eq_add {a b : Nat} (h : a + b < U32) : u32add a b = a + b :=
  Nat.mod_eq_of_lt h

theorem list_getD_set {α : Type} (l : List α) (i j : Nat) (a d : α) :
    (l.set i a).getD j d =
      if i = j ∧ j < l.length then a else l.getD j d := by
  induction l generalizing i j with
  | nil => simp
  | cons x xs ih =>
      cases i with
      | zero => cases j <;> simp
      | succ i' =>
          cases j with
          | zero => simp
          | succ j' =>
              simpa [Nat.succ_lt_succ_iff] using ih i' j'

theorem copyEntriesAux_length {α : Type} (src : List α) (lo hi : Nat)
    (dst : List α) (k : Nat) :
    (copyEntriesAux src lo hi k dst).length = dst.length := by
  induction dst generalizing k with
  | nil => rfl
  | cons x xs ih => simp [copyEntriesAux, ih]

theorem copyEntries_length {α : Type} (src dst : List α) (lo hi : Nat) :
    (copyEntries src dst lo hi).length = dst.length :=
  copyEntriesAux_length src lo hi dst 0

theorem copyEntriesAux_getD {α : Type} (src : List α) (lo hi : Nat)
    (dst : List α) (k j : Nat) (d : α) :
    (copyEntriesAux src lo hi k dst).getD j d =
      if lo ≤ k + j ∧ k + j < hi ∧ j < dst.length then
        src.getD (k + j) (dst.getD j d)
      else dst.getD j d := by
  induction dst generalizing k j with
  | nil => simp [copyEntriesAux]
  | cons x xs ih =>
      cases j with
      | zero =>
          simp only [copyEntriesAux, List.getD_cons_zero, Nat.add_zero,
            List.length_cons]
          split
        
          · rename_i h
            have : lo ≤ k ∧ k < hi ∧ 0 < xs.length + 1 := ⟨h.1, h.2, by omega⟩
            simp [this, h]
          · rename_i h
            have : ¬ (lo ≤ k ∧ k < hi ∧ 0 < xs.length + 1) := by
              intro hc; exact h ⟨hc.1, hc.2.1⟩
            simp [this, h]
      | succ j' =>
          have heq : k + (j' + 1) = (k + 1) + j' := by omega
          simp only [copyEntriesAux, List.getD_cons_succ, List.length_cons,
            heq, ih (k + 1) j', Nat.add_lt_add_iff_right]

theorem copyEntries_getD {α : Type} (src dst : List α) (lo hi j : Nat) (d : α) :
    (copyEntries src dst lo hi).getD j d =
      if lo ≤ j ∧ j < hi ∧ j < dst.length then src.getD j (dst.getD j d)
      else dst.getD j d := by
  simpa using copyEntriesAux_getD src lo hi dst 0 j d

theorem stepFrame_seq {tg : List Nat} {s : SstState}
    {r1 r2 : SstState × List Nat}
    (h1 : StepFrame tg s r1) (h2 : StepFrame tg r1.1 r2) :
    StepFrame tg s (r2.1, r1.2 ++ r2.2) := by
  obtain ⟨m1, f1, a1, c1⟩ := h1
  obtain ⟨m2, f2, a2, c2⟩ := h2
  refine ⟨?_, ?_, ?_, ?_⟩
  · intro b hb
    rcases List.mem_append.1 hb with h | h
    · exact m1 b h
    · exact m2 b h
  · intro b hb
    rw [f2 b hb, f1 b hb]
  · rw [a2, a1]
  · rw [c2, c1]

theorem stepFrame_state {tg : List Nat} {s : SstState} (s' : SstState)
    (hf : ∀ b, s'.flash b = s.flash b)
    (ha : s'.ctx.active_metablock = s.ctx.active_metablock)
    (hc : s'.ctx.scratch_metablock = s.ctx.scratch_metablock) :
    StepFrame tg s (s', []) :=
  ⟨fun b hb => absurd hb (List.not_mem_nil b), fun b _ => hf b, ha, hc⟩

theorem usom_frame {tg : List Nat} (s : SstState) (i : Nat) (m : AssetMeta)
    (hmem : s.ctx.scratch_metablock ∈ tg) :
    StepFrame tg s (sst_mblock_update_scratch_object_meta s i m) := by
  refine ⟨?_, ?_, rfl, rfl⟩
  · intro b hb
    simp only [sst_mblock_update_scratch_object_meta,
      sst_meta_cur_meta_scratch, List.mem_singleton] at hb
    exact hb ▸ hmem
  · intro b hb
    have hbne : b ≠ s.ctx.scratch_metablock := fun h => hb (h ▸ hmem)
    simp [sst_mblock_update_scratch_object_meta, sst_meta_cur_meta_scratch,
      writeBlock, hbne]

theorem usbm_frame {tg : List Nat} (s : SstState) (lblock : Nat)
    (bm : BlockMeta) (hmem : s.ctx.scratch_metablock ∈ tg) :
    StepFrame tg s (sst_mblock_update_scratch_block_meta s lblock bm) := by
  refine ⟨?_, ?_, rfl, rfl⟩
  · intro b hb
    simp only [sst_mblock_update_scratch_block_meta,
      sst_meta_cur_meta_scratch, List.mem_singleton] at hb
    exact hb ▸ hmem
  · intro b hb
    have hbne : b ≠ s.ctx.scratch_metablock := fun h => hb (h ▸ hmem)
    simp [sst_mblock_update_scratch_block_meta, sst_meta_cur_meta_scratch,
      writeBlock, hbne]

theorem corom_frame {tg : List Nat} (s : SstState) (i : Nat)
    (hmem : s.ctx.scratch_metablock ∈ tg) :
    StepFrame tg s (sst_mblock_copy_remaining_object_meta s i) := by
  unfold sst_mblock_copy_remaining_object_meta
  by_cases hcase : i + 1 < SST_NUM_ASSETS <;>
    refine ⟨?_, ?_, by simp [hcase, sst_meta_cur_meta_scratch], by
      simp [hcase, sst_meta_cur_meta_scratch]⟩ <;>
    intro b hb
  · simp only [hcase, if_true, sst_meta_cur_meta_scratch,
      List.mem_cons, List.mem_singleton, List.not_mem_nil, or_false] at hb
    rcases hb with h | h <;> exact h ▸ hmem
  · have hbne : b ≠ s.ctx.scratch_metablock := fun h => hb (h ▸ hmem)
    simp [hcase, sst_meta_cur_meta_scratch, sst_meta_cur_meta_active,
      writeBlock, hbne]
  · simp only [hcase, if_false, sst_meta_cur_meta_scratch,
      List.mem_singleton] at hb
    exact hb ▸ hmem
  · have hbne : b ≠ s.ctx.scratch_metablock := fun h => hb (h ▸ hmem)
    simp [hcase, sst_meta_cur_meta_scratch, sst_meta_cur_meta_active,
      writeBlock, hbne]

theorem corbm_frame {tg : List Nat} (s : SstState) (lblock : Nat)
    (hmem : s.ctx.scratch_metablock ∈ tg) :
    StepFrame tg s (sst_mblock_copy_remaining_block_meta s lblock) := by
  refine ⟨?_, ?_, ?_, ?_⟩
  · intro b hb
    have hb' : b = s.ctx.scratch_metablock := by
      by_cases h0 : lblock ≠ SST_LOGICAL_DBLOCK0 <;>
        by_cases h1 : 1 < lblock <;>
        simp [sst_mblock_copy_remaining_block_meta,
          sst_mblock_update_scratch_block_meta, sst_meta_cur_meta_scratch,
          h0, h1] at hb <;> tauto
    exact hb' ▸ hmem
  · intro b hb
    have hbne : b ≠ s.ctx.scratch_metablock := fun h => hb (h ▸ hmem)
    by_cases h0 : lblock ≠ SST_LOGICAL_DBLOCK0 <;>
      by_cases h1 : 1 < lblock <;>
      simp [sst_mblock_copy_remaining_block_meta,
        sst_mblock_update_scratch_block_meta, sst_meta_cur_meta_scratch,
        sst_meta_cur_meta_active, writeBlock, h0, h1, hbne]
  · by_cases h0 : lblock ≠ SST_LOGICAL_DBLOCK0 <;>
      by_cases h1 : 1 < lblock <;>
      simp [sst_mblock_copy_remaining_block_meta,
        sst_mblock_update_scratch_block_meta, sst_meta_cur_meta_scratch,
        h0, h1]
  · by_cases h0 : lblock ≠ SST_LOGICAL_DBLOCK0 <;>
      by_cases h1 : 1 < lblock <;>
      simp [sst_mblock_copy_remaining_block_meta,
        sst_mblock_update_scratch_block_meta, sst_meta_cur_meta_scratch,
        h0, h1]

theorem migrate_frame {tg : List Nat} (s : SstState)
    (hmem : s.ctx.scratch_metablock ∈ tg) :
    StepFrame tg s (sst_mblock_migrate_data_to_scratch s) := by
  refine ⟨?_, ?_, rfl, rfl⟩
  · intro b hb
    simp only [sst_mblock_migrate_data_to_scratch,
      sst_meta_cur_meta_scratch, List.mem_singleton] at hb
    exact hb ▸ hmem
  · intro b hb
    have hbne : b ≠ s.ctx.scratch_metablock := fun h => hb (h ▸ hmem)
    simp [sst_mblock_migrate_data_to_scratch, sst_meta_cur_meta_scratch,
      moveDataBytes, writeBlock, hbne]

theorem dus_frame {tg : List Nat} (s : SstState) (lblock : Nat)
    (bm : BlockMeta) (payload : Nat → Nat) (offset size : Nat)
    (hmem : sst_meta_cur_data_scratch s lblock ∈ tg) :
    StepFrame tg s (sst_dblock_update_scratch s lblock bm payload offset size) := by
  refine ⟨?_, ?_, rfl, rfl⟩
  · intro b hb
    have hb' : b = sst_meta_cur_data_scratch s lblock := by
      by_cases hoff : offset > bm.data_start <;>
        simp [sst_dblock_update_scratch, hoff] at hb <;> tauto
    exact hb' ▸ hmem
  · intro b hb
    have hbne : b ≠ sst_meta_cur_data_scratch s lblock :=
      fun h => hb (h ▸ hmem)
    by_cases hoff : offset > bm.data_start <;>
      simp [sst_dblock_update_scratch, hoff, moveDataBytes, writeDataBytes,
        writeBlock, hbne]

theorem sds_frame {tg : List Nat} (s : SstState) (index lblock : Nat) :
    StepFrame tg s (sst_meta_set_data_scratch s index lblock, []) := by
  refine ⟨fun b hb => absurd hb (List.not_mem_nil b), ?_, ?_, ?_⟩
  · intro b _
    unfold sst_meta_set_data_scratch
    split <;> rfl
  · unfold sst_meta_set_data_scratch
    split <;> rfl
  · unfold sst_meta_set_data_scratch
    split <;> rfl

theorem stepFrame_opSeq {tg : List Nat} {s : SstState}
    {r : SstState × List Nat} {f : SstState → SstState × List Nat}
    (h1 : StepFrame tg s r) (h2 : StepFrame tg r.1 (f r.1)) :
    StepFrame tg s (opSeq r f) :=
  stepFrame_seq h1 h2

theorem corom_ctx (s : SstState) (i : Nat) :
    (sst_mblock_copy_remaining_object_meta s i).1.ctx = s.ctx := by
  unfold sst_mblock_copy_remaining_object_meta
  split <;> rfl

theorem corbm_ctx (s : SstState) (lblock : Nat) :
    (sst_mblock_copy_remaining_block_meta s lblock).1.ctx = s.ctx := by
  unfold sst_mblock_copy_remaining_block_meta
  split
  · split <;> rfl
  · rfl

theorem dus_ctx (s : SstState) (lblock : Nat) (bm : BlockMeta)
    (payload : Nat → Nat) (offset size : Nat) :
    (sst_dblock_update_scratch s lblock bm payload offset size).1.ctx = s.ctx := by
  unfold sst_dblock_update_scratch
  rfl

theorem sds_ctx_scratch (s : SstState) (index lblock : Nat) :
    (sst_meta_set_data_scratch s index lblock).ctx.scratch_metablock =
      s.ctx.scratch_metablock := by
  unfold sst_meta_set_data_scratch
  split <;> rfl

theorem compact_frame {tg : List Nat} (s : SstState)
    (lblock obj_size src_offset dst_offset size : Nat)
    (hm1 : s.ctx.scratch_metablock ∈ tg)
    (hm2 : sst_meta_cur_data_scratch s lblock ∈ tg) :
    StepFrame tg s
      (sst_compact_dblock s lblock obj_size src_offset dst_offset size) := by
  unfold sst_compact_dblock
  refine stepFrame_opSeq (stepFrame_opSeq ?_ ?_) ?_
  · -- the two data moves into the scratch data block
    constructor
    · intro b hb
      have hb' : b = sst_meta_cur_data_scratch s lblock := by
        by_cases hsz : size > 0 <;> by_cases hdst :
            dst_offset > (sst_meta_read_block_metadata s lblock).data_start <;>
          simp [hsz, hdst] at hb <;> tauto
      exact hb' ▸ hm2
    refine ⟨?_, rfl, rfl⟩
    intro b hb
    have hbne : b ≠ sst_meta_cur_data_scratch s lblock :=
      fun h => hb (h ▸ hm2)
    by_cases hsz : size > 0 <;> by_cases hdst :
        dst_offset > (sst_meta_read_block_metadata s lblock).data_start <;>
      simp [hsz, hdst, moveDataBytes, writeBlock, hbne]
  · exact stepFrame_seq (sds_frame _ _ _)
      (usbm_frame _ _ _ (by rw [sds_ctx_scratch]; exact hm1))
  · apply corbm_frame
    simp only [opSeq, sst_mblock_update_scratch_block_meta,
      sst_meta_cur_meta_scratch]
    rw [sds_ctx_scratch]
    exact hm1

theorem delete_loop_frame {tg : List Nat}
    (di dl dd dm : Nat) (idxs : List Nat) (s : SstState)
    (acc : SstState × List Nat × Nat × Nat)
    (hacc : StepFrame tg s (acc.1, acc.2.1))
    (hmem : s.ctx.scratch_metablock ∈ tg) :
    StepFrame tg s
      ((idxs.foldl (sst_delete_loop_step di dl dd dm) acc).1,
       (idxs.foldl (sst_delete_loop_step di dl dd dm) acc).2.1) := by
  induction idxs generalizing acc with
  | nil => exact hacc
  | cons i rest ih =>
      simp only [List.foldl_cons]
      apply ih
      unfold sst_delete_loop_step
      by_cases hi : i = di
      · simpa [hi] using hacc
      · simp only [hi, if_false, ite_false]
        refine stepFrame_seq hacc (usom_frame _ _ _ ?_)
        rw [hacc.2.2.2]
        exact hmem

theorem cur_data_scratch_mem {tg : List Nat} (s : SstState) (lblock : Nat)
    (hm1 : s.ctx.scratch_metablock ∈ tg)
    (hm2 : s.ctx.meta_block_header.scratch_idx ∈ tg) :
    sst_meta_cur_data_scratch s lblock ∈ tg := by
  unfold sst_meta_cur_data_scratch sst_meta_cur_meta_scratch
  split <;> assumption

theorem delete_loop_ctx (di dl dd dm : Nat) (idxs : List Nat)
    (acc : SstState × List Nat × Nat × Nat) :
    ((idxs.foldl (sst_delete_loop_step di dl dd dm) acc).1).ctx = acc.1.ctx := by
  induction idxs generalizing acc with
  | nil => rfl
  | cons i rest ih =>
      simp only [List.foldl_cons]
      rw [ih]
      unfold sst_delete_loop_step
      by_cases hi : i = di
      · simp [hi]
      · simp [hi, sst_mblock_update_scratch_object_meta]

theorem create_pre_frame {tg : List Nat} (s : SstState) (uuid size : Nat)
    {rl : SstState × List Nat}
    (hok : sst_core_object_create_pre s uuid size = Except.ok rl)
    (hm1 : s.ctx.scratch_metablock ∈ tg) :
    StepFrame tg s rl := by
  unfold sst_core_object_create_pre at hok
  rcases hres : sst_meta_reserve_object s size with _ | ⟨om, bm⟩ <;>
    simp only [hres] at hok
  · cases hok
  · by_cases hidx : sst_get_free_object_index s = SST_METADATA_INVALID_INDEX
    · rw [if_pos hidx] at hok
      cases hok
    · rw [if_neg hidx] at hok
      injection hok with hok
      subst hok
      refine stepFrame_opSeq (stepFrame_opSeq (stepFrame_opSeq (stepFrame_opSeq
        (usom_frame _ _ _ hm1) (usbm_frame _ _ _ hm1)) (corom_frame _ _ hm1))
        (corbm_frame _ _ ?_)) (migrate_frame _ ?_)
      · simp only [opSeq, corom_ctx]
        exact hm1
      · simp only [opSeq, corbm_ctx, corom_ctx]
        exact hm1

theorem write_pre_frame {tg : List Nat} (s : SstState)
    (asset_handle : Nat) (payload : Nat → Nat) (offset size : Nat)
    (hm1 : s.ctx.scratch_metablock ∈ tg)
    (hm2 : s.ctx.meta_block_header.scratch_idx ∈ tg) :
    StepFrame tg s
      (sst_core_object_write_pre s asset_handle payload offset size) := by
  unfold sst_core_object_write_pre
  refine stepFrame_opSeq (stepFrame_opSeq (stepFrame_opSeq (stepFrame_opSeq
    (stepFrame_opSeq
      (dus_frame _ _ _ _ _ _ (cur_data_scratch_mem s _ hm1 hm2))
      ?_) ?_) ?_) ?_) ?_
  · exact stepFrame_seq (sds_frame _ _ _)
      (usbm_frame _ _ _ (by rw [sds_ctx_scratch, dus_ctx]; exact hm1))
  · apply usom_frame
    simp only [opSeq, sst_mblock_update_scratch_block_meta,
      sst_meta_cur_meta_scratch, sds_ctx_scratch, dus_ctx]
    exact hm1
  · apply corbm_frame
    simp only [opSeq, sst_mblock_update_scratch_object_meta,
      sst_mblock_update_scratch_block_meta, sst_meta_cur_meta_scratch,
      sds_ctx_scratch, dus_ctx]
    exact hm1
  · apply corom_frame
    simp only [opSeq, corbm_ctx, sst_mblock_update_scratch_object_meta,
      sst_mblock_update_scratch_block_meta, sst_meta_cur_meta_scratch,
      sds_ctx_scratch, dus_ctx]
    exact hm1
  · split
    · apply migrate_frame
      simp only [opSeq, corom_ctx, corbm_ctx,
        sst_mblock_update_scratch_object_meta,
        sst_mblock_update_scratch_block_meta, sst_meta_cur_meta_scratch,
        sds_ctx_scratch, dus_ctx]
      exact hm1
    · exact stepFrame_state _ (fun b => rfl) rfl rfl

theorem delete_pre_frame {tg : List Nat} (s : SstState) (asset_handle : Nat)
    {rl : SstState × List Nat}
    (hok : sst_core_object_delete_pre s asset_handle = Except.ok rl)
    (hm1 : s.ctx.scratch_metablock ∈ tg)
    (hm2 : s.ctx.meta_block_header.scratch_idx ∈ tg) :
    StepFrame tg s rl := by
  unfold sst_core_object_delete_pre at hok
  by_cases hv : sst_utils_validate_uuid
      (sst_meta_read_object_meta s
        (sst_utils_extract_index_from_handle asset_handle)).unique_id ≠
      Err.success
  · rw [if_pos hv] at hok
    cases hok
  · rw [if_neg hv] at hok
    injection hok with hok
    subst hok
    refine stepFrame_opSeq (delete_loop_frame _ _ _ _ _ s _
      (usom_frame _ _ _ hm1) hm1) ?_
    apply compact_frame
    · rw [delete_loop_ctx]
      exact hm1
    · refine cur_data_scratch_mem _ _ ?_ ?_ <;> rw [delete_loop_ctx]
      · exact hm1
      · exact hm2

/-- C3: for every SSE mutation (create, write, delete), every flash write or
erase issued before `sst_meta_update_finalize` commits the new header targets
only the scratch metadata block or the scratch data block; consequently the
contents of the active metadata block, and of every data block referenced by
the active block metadata, are unchanged by the whole pre-finalize stage
(hence by any error-truncated prefix of it), and an operation that fails
before its first write returns with the state and write log untouched. -/
theorem sse_mutation_writes_target_scratch_only
    (s : SstState) (uuid size asset_handle offset wsize : Nat)
    (payload : Nat → Nat)
    (hact1 : s.ctx.active_metablock ≠ s.ctx.scratch_metablock)
    (hact2 : s.ctx.active_metablock ≠ s.ctx.meta_block_header.scratch_idx)
    (href : ∀ i : Fin SST_NUM_ACTIVE_DBLOCKS,
      (sst_meta_read_block_metadata s i).phys_id ≠ s.ctx.scratch_metablock ∧
      (sst_meta_read_block_metadata s i).phys_id ≠
        s.ctx.meta_block_header.scratch_idx) :
    (∀ r l, sst_core_object_create_pre s uuid size = Except.ok (r, l) →
      (∀ b ∈ l, b = s.ctx.scratch_metablock ∨
        b = s.ctx.meta_block_header.scratch_idx) ∧
      r.flash s.ctx.active_metablock = s.flash s.ctx.active_metablock ∧
      ∀ i : Fin SST_NUM_ACTIVE_DBLOCKS,
        r.flash (sst_meta_read_block_metadata s i).phys_id =
          s.flash (sst_meta_read_block_metadata s i).phys_id) ∧
    (∀ e, sst_core_object_create_pre s uuid size = Except.error e →
      sst_core_object_create s uuid size = (e, s, [])) ∧
    ((∀ b ∈ (sst_core_object_write_pre s asset_handle payload offset wsize).2,
        b = s.ctx.scratch_metablock ∨
        b = s.ctx.meta_block_header.scratch_idx) ∧
      (sst_core_object_write_pre s asset_handle payload offset wsize).1.flash
          s.ctx.active_metablock = s.flash s.ctx.active_metablock ∧
      ∀ i : Fin SST_NUM_ACTIVE_DBLOCKS,
        (sst_core_object_write_pre s asset_handle payload offset wsize).1.flash
            (sst_meta_read_block_metadata s i).phys_id =
          s.flash (sst_meta_read_block_metadata s i).phys_id) ∧
    (∀ r l, sst_core_object_delete_pre s asset_handle = Except.ok (r, l) →
      (∀ b ∈ l, b = s.ctx.scratch_metablock ∨
        b = s.ctx.meta_block_header.scratch_idx) ∧
      r.flash s.ctx.active_metablock = s.flash s.ctx.active_metablock ∧
      ∀ i : Fin SST_NUM_ACTIVE_DBLOCKS,
        r.flash (sst_meta_read_block_metadata s i).phys_id =
          s.flash (sst_meta_read_block_metadata s i).phys_id) ∧
    (∀ e, sst_core_object_delete_pre s asset_handle = Except.error e →
      sst_core_object_delete s asset_handle = (e, s, [])) := by
  have hm1 : s.ctx.scratch_metablock ∈
      [s.ctx.scratch_metablock, s.ctx.meta_block_header.scratch_idx] := by simp
  have hm2 : s.ctx.meta_block_header.scratch_idx ∈
      [s.ctx.scratch_metablock, s.ctx.meta_block_header.scratch_idx] := by simp
  have hactmem : s.ctx.active_metablock ∉
      [s.ctx.scratch_metablock, s.ctx.meta_block_header.scratch_idx] := by
    simp [hact1, hact2]
  have hrefmem : ∀ i : Fin SST_NUM_ACTIVE_DBLOCKS,
      (sst_meta_read_block_metadata s i).phys_id ∉
        [s.ctx.scratch_metablock, s.ctx.meta_block_header.scratch_idx] := by
    intro i
    simp [(href i).1, (href i).2]
  refine ⟨?_, ?_, ?_, ?_, ?_⟩
  · intro r l hok
    have F := create_pre_frame s uuid size hok hm1
    refine ⟨?_, F.2.1 _ hactmem, fun i => F.2.1 _ (hrefmem i)⟩
    intro b hb
    simpa using F.1 b hb
  · intro e herr
    unfold sst_core_object_create
    rw [herr]
  · have F := write_pre_frame s asset_handle payload offset wsize hm1 hm2
    refine ⟨?_, F.2.1 _ hactmem, fun i => F.2.1 _ (hrefmem i)⟩
    intro b hb
    simpa using F.1 b hb
  · intro r l hok
    have F := delete_pre_frame s asset_handle hok hm1 hm2
    refine ⟨?_, F.2.1 _ hactmem, fun i => F.2.1 _ (hrefmem i)⟩
    intro b hb
    simpa using F.1 b hb
  · intro e herr
    unfold sst_core_object_delete
    rw [herr]

/-- Witness for C3 at the concrete example state (active block 0, scratch
metadata block 1, scratch data block 2): a write through handle `(5 << 16)`
logs only writes to blocks 1 and 2 and leaves block 0 and the referenced
data blocks 0, 3, 4 unchanged. -/
theorem sse_mutation_writes_target_scratch_only_witness :
    (∀ b ∈ (sst_core_object_write_pre exampleState
        (sst_utils_compose_handle 5 0) (fun _ => 0) 0 4).2,
      b = exampleState.ctx.scratch_metablock ∨
      b = exampleState.ctx.meta_block_header.scratch_idx) ∧
    (sst_core_object_write_pre exampleState
        (sst_utils_compose_handle 5 0) (fun _ => 0) 0 4).1.flash
        exampleState.ctx.active_metablock =
      exampleState.flash exampleState.ctx.active_metablock ∧
    ∀ i : Fin SST_NUM_ACTIVE_DBLOCKS,
      (sst_core_object_write_pre exampleState
          (sst_utils_compose_handle 5 0) (fun _ => 0) 0 4).1.flash
          (sst_meta_read_block_metadata exampleState i).phys_id =
        exampleState.flash
          (sst_meta_read_block_metadata exampleState i).phys_id :=
  (sse_mutation_writes_target_scratch_only exampleState 9 16
    (sst_utils_compose_handle 5 0) 0 4 (fun _ => 0)
    (by decide) (by decide) (by decide)).2.2.1

/-- C7 (amended): only `sst_core_object_read` cross-checks the uuid embedded
in an asset handle against the stored entry, failing with `INVALID_HANDLE`
(and performing no flash mutation — its model mutates nothing by
construction); `sst_core_object_write` and `sst_core_object_delete` use only
the index half of the handle and never return `INVALID_HANDLE` — delete
merely requires the entry at the handle's index to be in use. -/
theorem sse_stale_handle_check_read_only
    (s : SstState) (asset_handle offset size : Nat) (payload : Nat → Nat)
    (hmis : sst_utils_extract_uuid_from_handle asset_handle ≠
      (sst_meta_read_object_meta s
        (sst_utils_extract_index_from_handle asset_handle)).unique_id) :
    sst_core_object_read s asset_handle offset size = Err.invalidHandle ∧
    (sst_core_object_write s asset_handle payload offset size).1 ≠
      Err.invalidHandle ∧
    (sst_core_object_delete s asset_handle).1 ≠ Err.invalidHandle := by
  refine ⟨?_, ?_, ?_⟩
  · simp [sst_core_object_read, hmis]
  · simp [sst_core_object_write]
  · by_cases hv : sst_utils_validate_uuid
        (sst_meta_read_object_meta s
          (sst_utils_extract_index_from_handle asset_handle)).unique_id ≠
        Err.success <;>
      simp [sst_core_object_delete, sst_core_object_delete_pre, hv]

/-- Witness for C7 (amended) at the example state: handle `(7 << 16)` names
index 0 whose stored uuid is 5. -/
theorem sse_stale_handle_check_read_only_witness :
    sst_core_object_read exampleState (sst_utils_compose_handle 7 0) 0 4 =
      Err.invalidHandle ∧
    (sst_core_object_write exampleState (sst_utils_compose_handle 7 0)
        (fun _ => 0) 0 4).1 ≠ Err.invalidHandle ∧
    (sst_core_object_delete exampleState
        (sst_utils_compose_handle 7 0)).1 ≠ Err.invalidHandle :=
  sse_stale_handle_check_read_only exampleState (sst_utils_compose_handle 7 0)
    0 4 (fun _ => 0) (by decide)

/-- Counterexample for C7 as stated: at the example state, the handle
`(7 << 16)` embeds uuid 7 while the entry at its index 0 stores uuid 5, yet
`sst_core_object_write` succeeds (returning `SUCCESS`, not `INVALID_HANDLE`)
and mutates flash (its write log is non-empty), and
`sst_core_object_delete` likewise succeeds and deletes the entry. -/
theorem sse_stale_handle_write_delete_counterexample :
    sst_utils_extract_uuid_from_handle (sst_utils_compose_handle 7 0) ≠
      (sst_meta_read_object_meta exampleState 0).unique_id ∧
    (sst_core_object_write exampleState (sst_utils_compose_handle 7 0)
        (fun _ => 0) 0 4).1 = Err.success ∧
    (sst_core_object_write exampleState (sst_utils_compose_handle 7 0)
        (fun _ => 0) 0 4).2.2 ≠ [] ∧
    (sst_core_object_delete exampleState
        (sst_utils_compose_handle 7 0)).1 = Err.success := by
  refine ⟨by decide, rfl, ?_, ?_⟩
  · decide
  · decide

theorem read_object_meta_congr {s1 s0 : SstState}
    (hctx : s1.ctx = s0.ctx)
    (hact : s1.flash s0.ctx.active_metablock =
      s0.flash s0.ctx.active_metablock) (i : Nat) :
    sst_meta_read_object_meta s1 i = sst_meta_read_object_meta s0 i := by
  unfold sst_meta_read_object_meta
  rw [hctx, hact]

theorem delete_step_ctx (di dl dd dmx : Nat)
    (acc : SstState × List Nat × Nat × Nat) (i : Nat) :
    ((sst_delete_loop_step di dl dd dmx acc i).1).ctx = acc.1.ctx := by
  unfold sst_delete_loop_step
  by_cases hi : i = di <;>
    simp [hi, sst_mblock_update_scratch_object_meta]

theorem delete_step_flash_ne (di dl dd dmx : Nat)
    (acc : SstState × List Nat × Nat × Nat) (i b : Nat)
    (hb : b ≠ acc.1.ctx.scratch_metablock) :
    ((sst_delete_loop_step di dl dd dmx acc i).1).flash b = acc.1.flash b := by
  unfold sst_delete_loop_step
  by_cases hi : i = di <;>
    simp [hi, sst_mblock_update_scratch_object_meta,
      sst_meta_cur_meta_scratch, writeBlock, hb]

theorem delete_step_scratch_ometa (di dl dd dmx : Nat)
    (acc : SstState × List Nat × Nat × Nat) (i : Nat) :
    (((sst_delete_loop_step di dl dd dmx acc i).1).flash
        acc.1.ctx.scratch_metablock).ometa =
      if i = di then
        ((acc.1.flash acc.1.ctx.scratch_metablock)).ometa
      else
        ((acc.1.flash acc.1.ctx.scratch_metablock)).ometa.set i
          (deleteShift dl dd dmx (sst_meta_read_object_meta acc.1 i)) := by
  unfold sst_delete_loop_step deleteShift
  by_cases hi : i = di
  · simp [hi]
  · by_cases hcond : (sst_meta_read_object_meta acc.1 i).lblock = dl ∧
        (sst_meta_read_object_meta acc.1 i).data_index > dd <;>
      simp [hi, hcond, sst_mblock_update_scratch_object_meta,
        sst_meta_cur_meta_scratch, writeBlock]

theorem delete_loop_content (di dl dd dmx : Nat) (s0 : SstState)
    (idxs : List Nat) (acc : SstState × List Nat × Nat × Nat)
    (hne : s0.ctx.active_metablock ≠ s0.ctx.scratch_metablock)
    (hctx : acc.1.ctx = s0.ctx)
    (hact : acc.1.flash s0.ctx.active_metablock =
      s0.flash s0.ctx.active_metablock) :
    (((idxs.foldl (sst_delete_loop_step di dl dd dmx) acc).1).flash
        s0.ctx.active_metablock = s0.flash s0.ctx.active_metablock) ∧
    ∀ j : Nat,
      ((((idxs.foldl (sst_delete_loop_step di dl dd dmx) acc).1).flash
          s0.ctx.scratch_metablock).ometa).getD j default =
        (if j ∈ idxs ∧ j ≠ di ∧
            j < ((acc.1.flash s0.ctx.scratch_metablock).ometa).length then
          deleteShift dl dd dmx (sst_meta_read_object_meta s0 j)
        else ((acc.1.flash s0.ctx.scratch_metablock).ometa).getD j default) := by
  induction idxs generalizing acc with
  | nil =>
      refine ⟨hact, ?_⟩
      intro j
      simp
  | cons i rest ih =>
      simp only [List.foldl_cons]
      have hctx' : ((sst_delete_loop_step di dl dd dmx acc i).1).ctx = s0.ctx := by
        rw [delete_step_ctx, hctx]
      have hact' : ((sst_delete_loop_step di dl dd dmx acc i).1).flash
          s0.ctx.active_metablock = s0.flash s0.ctx.active_metablock := by
        rw [delete_step_flash_ne, hact]
        rw [hctx]
        exact hne
      obtain ⟨ihA, ihB⟩ := ih (sst_delete_loop_step di dl dd dmx acc i)
        hctx' hact'
      refine ⟨ihA, ?_⟩
      intro j
      have h1 := delete_step_scratch_ometa di dl dd dmx acc i
      rw [hctx] at h1
      by_cases hidi : i = di
      · have hscr : (((sst_delete_loop_step di dl dd dmx acc i).1).flash
            s0.ctx.scratch_metablock).ometa =
            ((acc.1.flash s0.ctx.scratch_metablock)).ometa := by
          rw [h1, if_pos hidi]
        rw [ihB j, hscr]
        have hiff : (j ∈ rest ∧ j ≠ di ∧
            j < ((acc.1.flash s0.ctx.scratch_metablock).ometa).length) ↔
            (j ∈ i :: rest ∧ j ≠ di ∧
            j < ((acc.1.flash s0.ctx.scratch_metablock).ometa).length) := by
          subst hidi
          constructor
          · rintro ⟨hj, hne2, hl⟩
            exact ⟨List.mem_cons_of_mem _ hj, hne2, hl⟩
          · rintro ⟨hj, hne2, hl⟩
            rcases List.mem_cons.1 hj with heq | hj2
            · exact absurd heq hne2
            · exact ⟨hj2, hne2, hl⟩
        exact if_congr hiff rfl rfl
      · have hscr : (((sst_delete_loop_step di dl dd dmx acc i).1).flash
            s0.ctx.scratch_metablock).ometa =
            ((acc.1.flash s0.ctx.scratch_metablock)).ometa.set i
              (deleteShift dl dd dmx (sst_meta_read_object_meta s0 i)) := by
          rw [h1, if_neg hidi, read_object_meta_congr hctx hact]
        rw [ihB j, hscr, List.length_set, list_getD_set]
        by_cases hA : j ∈ rest ∧ j ≠ di ∧
            j < ((acc.1.flash s0.ctx.scratch_metablock).ometa).length
        · rw [if_pos hA, if_pos ⟨List.mem_cons_of_mem _ hA.1, hA.2⟩]
      
        · rw [if_neg hA]
          by_cases hB : i = j ∧
              j < ((acc.1.flash s0.ctx.scratch_metablock).ometa).length
          · rw [if_pos hB]
            have hcond : j ∈ i :: rest ∧ j ≠ di ∧
                j < ((acc.1.flash s0.ctx.scratch_metablock).ometa).length := by
              refine ⟨?_, ?_, hB.2⟩
              · rw [← hB.1]
                exact List.mem_cons_self i rest
              · intro h
                exact hidi (hB.1.trans h)
            rw [if_pos hcond, hB.1]
          · rw [if_neg hB]
            have hcond : ¬ (j ∈ i :: rest ∧ j ≠ di ∧
                j < ((acc.1.flash s0.ctx.scratch_metablock).ometa).length) := by
              rintro ⟨hj, hne2, hl⟩
              rcases List.mem_cons.1 hj with heq | hj2
              · exact hB ⟨heq.symm, hl⟩
              · exact hA ⟨hj2, hne2, hl⟩
            rw [if_neg hcond]

theorem writeBlock_ometa (f : Flash) (bid X : Nat) (g : Block → Block)
    (hg : ∀ blk, (g blk).ometa = blk.ometa) :
    ((writeBlock f bid g) X).ometa = (f X).ometa := by
  unfold writeBlock
  split
  · exact hg (f X)
  · rfl

theorem writeBlock_bmeta (f : Flash) (bid X : Nat) (g : Block → Block)
    (hg : ∀ blk, (g blk).bmeta = blk.bmeta) :
    ((writeBlock f bid g) X).bmeta = (f X).bmeta := by
  unfold writeBlock
  split
  · exact hg (f X)
  · rfl

theorem deleteShift_unique_id (dl dd dmx : Nat) (m : AssetMeta) :
    (deleteShift dl dd dmx m).unique_id = m.unique_id := by
  unfold deleteShift
  split <;> rfl

theorem deleteShift_lblock (dl dd dmx : Nat) (m : AssetMeta) :
    (deleteShift dl dd dmx m).lblock = m.lblock := by
  unfold deleteShift
  split <;> rfl

theorem deleteShift_max_size (dl dd dmx : Nat) (m : AssetMeta) :
    (deleteShift dl dd dmx m).max_size = m.max_size := by
  unfold deleteShift
  split <;> rfl

theorem deleteShift_data_index (dl dd dmx : Nat) (m : AssetMeta) :
    (deleteShift dl dd dmx m).data_index =
      if m.lblock = dl ∧ m.data_index > dd then u32sub m.data_index dmx
      else m.data_index := by
  by_cases h : m.lblock = dl ∧ m.data_index > dd <;> simp [deleteShift, h]

theorem delete_step_bmeta (di dl dd dmx : Nat)
    (acc : SstState × List Nat × Nat × Nat) (i X : Nat) :
    (((sst_delete_loop_step di dl dd dmx acc i).1).flash X).bmeta =
      (acc.1.flash X).bmeta := by
  unfold sst_delete_loop_step
  by_cases hi : i = di
  · simp [hi]
  · rw [if_neg hi]
    exact writeBlock_bmeta _ _ _ _ (fun blk => rfl)

theorem delete_loop_bmeta (di dl dd dmx : Nat) (idxs : List Nat)
    (acc : SstState × List Nat × Nat × Nat) (X : Nat) :
    ((((idxs.foldl (sst_delete_loop_step di dl dd dmx) acc).1)).flash X).bmeta =
      (acc.1.flash X).bmeta := by
  induction idxs generalizing acc with
  | nil => rfl
  | cons i rest ih =>
      simp only [List.foldl_cons]
      rw [ih, delete_step_bmeta]

theorem read_block_metadata_congr {s1 s0 : SstState} (hctx : s1.ctx = s0.ctx)
    (hact : s1.flash s0.ctx.active_metablock =
      s0.flash s0.ctx.active_metablock) (lb : Nat) :
    sst_meta_read_block_metadata s1 lb = sst_meta_read_block_metadata s0 lb := by
  unfold sst_meta_read_block_metadata sst_meta_cur_meta_active
  rw [hctx, hact]

theorem corbm_ometa (s : SstState) (lb X : Nat) :
    (((sst_mblock_copy_remaining_block_meta s lb).1).flash X).ometa =
      (s.flash X).ometa := by
  simp only [sst_mblock_copy_remaining_block_meta,
    sst_mblock_update_scratch_block_meta,
    sst_meta_cur_meta_scratch, sst_meta_cur_meta_active]
  split_ifs <;>
    (dsimp only
     repeat rw [writeBlock_ometa]
     all_goals exact fun blk => rfl)

theorem corbm_bmeta_getD_high (s : SstState) (lb : Nat)
    (h0 : lb ≠ SST_LOGICAL_DBLOCK0) :
    ((((sst_mblock_copy_remaining_block_meta s lb).1).flash
        s.ctx.scratch_metablock).bmeta).getD lb default =
      ((s.flash s.ctx.scratch_metablock).bmeta).getD lb default := by
  simp only [sst_mblock_copy_remaining_block_meta,
    sst_mblock_update_scratch_block_meta,
    sst_meta_cur_meta_scratch, sst_meta_cur_meta_active]
  rw [if_pos h0]
  dsimp only
  by_cases h1 : 1 < lb
  · rw [if_pos h1]
    dsimp only
    rw [writeBlock_eq]
    dsimp only
    rw [copyEntries_getD, if_neg (fun hc => absurd hc.1 (by omega))]
    rw [writeBlock_eq]
    dsimp only
    rw [copyEntries_getD, if_neg (fun hc => absurd hc.2.1 (by omega))]
    rw [writeBlock_eq]
    dsimp only
    rw [list_getD_set, if_neg (fun hc => h0 hc.1.symm)]
  · rw [if_neg h1]
    dsimp only
    rw [writeBlock_eq]
    dsimp only
    rw [copyEntries_getD, if_neg (fun hc => absurd hc.1 (by omega))]
    rw [writeBlock_eq]
    dsimp only
    rw [list_getD_set, if_neg (fun hc => h0 hc.1.symm)]

theorem compact_ctx (t : SstState) (lb os so do2 sz : Nat)
    (h0 : lb ≠ SST_LOGICAL_DBLOCK0) :
    ((sst_compact_dblock t lb os so do2 sz).1).ctx =
      { t.ctx with meta_block_header :=
        { t.ctx.meta_block_header with
          scratch_idx := (sst_meta_read_block_metadata t lb).phys_id } } := by
  simp only [sst_compact_dblock, opSeq]
  rw [corbm_ctx]
  simp only [sst_mblock_update_scratch_block_meta, sst_meta_cur_meta_scratch,
    sst_meta_set_data_scratch]
  simp only [if_pos h0]

theorem compact_ometa (t : SstState) (lb os so do2 sz X : Nat) :
    (((sst_compact_dblock t lb os so do2 sz).1).flash X).ometa =
      (t.flash X).ometa := by
  simp only [sst_compact_dblock, opSeq, sst_mblock_update_scratch_block_meta,
    sst_meta_set_data_scratch, sst_meta_cur_meta_scratch,
    sst_meta_cur_data_scratch, moveDataBytes]
  rw [corbm_ometa]
  split_ifs <;>
    (dsimp only
     repeat rw [writeBlock_ometa]
     all_goals exact fun blk => rfl)

theorem moveDataBytes_bmeta (f : Flash) (db do2 sb so2 sz X : Nat) :
    ((moveDataBytes f db do2 sb so2 sz) X).bmeta = (f X).bmeta := by
  unfold moveDataBytes
  exact writeBlock_bmeta _ _ _ _ (fun blk => rfl)

theorem compact_scratch_bmeta (t : SstState) (lb os so do2 sz : Nat)
    (h0 : lb ≠ SST_LOGICAL_DBLOCK0)
    (hlen : lb < ((t.flash t.ctx.scratch_metablock).bmeta).length) :
    ((((sst_compact_dblock t lb os so do2 sz).1).flash
        t.ctx.scratch_metablock).bmeta).getD lb default =
      { sst_meta_read_block_metadata t lb with
        phys_id := t.ctx.meta_block_header.scratch_idx,
        free_size := u32add (sst_meta_read_block_metadata t lb).free_size os } := by
  simp only [sst_compact_dblock, opSeq, sst_mblock_update_scratch_block_meta,
    sst_mblock_copy_remaining_block_meta, sst_meta_set_data_scratch,
    sst_meta_cur_meta_scratch, sst_meta_cur_meta_active,
    sst_meta_cur_data_scratch]
  simp only [if_pos h0, if_neg h0]
  try dsimp only
  by_cases h1 : 1 < lb
  · simp only [if_pos h1]
    try dsimp only
    rw [writeBlock_eq]
    try dsimp only
    rw [copyEntries_getD, if_neg (fun hc => absurd hc.1 (by omega))]
    rw [writeBlock_eq]
    try dsimp only
    rw [copyEntries_getD, if_neg (fun hc => absurd hc.2.1 (by omega))]
    rw [writeBlock_eq]
    try dsimp only
    rw [list_getD_set, if_neg (fun hc => h0 hc.1.symm)]
    rw [writeBlock_eq]
    try dsimp only
    split_ifs <;>
      (try dsimp only
       try simp only [moveDataBytes_bmeta]
       rw [list_getD_set,
         if_pos (show lb = lb ∧
           lb < ((t.flash t.ctx.scratch_metablock).bmeta).length from
             ⟨rfl, hlen⟩)]
       try rfl)
  · simp only [if_neg h1]
    try dsimp only
    rw [writeBlock_eq]
    try dsimp only
    rw [copyEntries_getD, if_neg (fun hc => absurd hc.1 (by omega))]
    rw [writeBlock_eq]
    try dsimp only
    rw [list_getD_set, if_neg (fun hc => h0 hc.1.symm)]
    rw [writeBlock_eq]
    try dsimp only
    split_ifs <;>
      (try dsimp only
       try simp only [moveDataBytes_bmeta]
       rw [list_getD_set,
         if_pos (show lb = lb ∧
           lb < ((t.flash t.ctx.scratch_metablock).bmeta).length from
             ⟨rfl, hlen⟩)]
       try rfl)

theorem compact_ctx0 (t : SstState) (lb os so do2 sz : Nat)
    (h0 : lb = SST_LOGICAL_DBLOCK0) :
    ((sst_compact_dblock t lb os so do2 sz).1).ctx = t.ctx := by
  subst h0
  simp only [sst_compact_dblock, opSeq]
  rw [corbm_ctx]
  simp only [sst_mblock_update_scratch_block_meta, sst_meta_cur_meta_scratch,
    sst_meta_set_data_scratch]
  simp only [if_neg (show ¬ (SST_LOGICAL_DBLOCK0 ≠ SST_LOGICAL_DBLOCK0) from
    fun hc => hc rfl)]

theorem compact_scratch_bmeta0 (t : SstState) (lb os so do2 sz : Nat)
    (h0 : lb = SST_LOGICAL_DBLOCK0)
    (hlen : lb < ((t.flash t.ctx.scratch_metablock).bmeta).length) :
    ((((sst_compact_dblock t lb os so do2 sz).1).flash
        t.ctx.scratch_metablock).bmeta).getD lb default =
      { sst_meta_read_block_metadata t lb with
        phys_id := t.ctx.scratch_metablock,
        free_size := u32add (sst_meta_read_block_metadata t lb).free_size
          os } := by
  subst h0
  simp only [sst_compact_dblock, opSeq, sst_mblock_update_scratch_block_meta,
    sst_mblock_copy_remaining_block_meta, sst_meta_set_data_scratch,
    sst_meta_cur_meta_scratch, sst_meta_cur_meta_active,
    sst_meta_cur_data_scratch]
  simp only [if_pos (show SST_LOGICAL_DBLOCK0 = SST_LOGICAL_DBLOCK0 from rfl),
    if_neg (show ¬ (SST_LOGICAL_DBLOCK0 ≠ SST_LOGICAL_DBLOCK0) from
      fun hc => hc rfl)]
  try dsimp only
  rw [writeBlock_eq]
  try dsimp only
  rw [copyEntries_getD, if_neg (fun hc => absurd hc.1 (by omega))]
  rw [writeBlock_eq]
  try dsimp only
  split_ifs <;>
    (try dsimp only
     try simp only [moveDataBytes_bmeta]
     rw [list_getD_set,
       if_pos (show SST_LOGICAL_DBLOCK0 = SST_LOGICAL_DBLOCK0 ∧
         SST_LOGICAL_DBLOCK0 <
           ((t.flash t.ctx.scratch_metablock).bmeta).length from
           ⟨rfl, hlen⟩)]
     try rfl)

theorem finalize_active (u : SstState) :
    ((sst_meta_update_finalize u).1).ctx.active_metablock =
      u.ctx.scratch_metablock := rfl

theorem finalize_ometa (u : SstState) (X : Nat)
    (hA : X ≠ u.ctx.active_metablock)
    (hP : X ≠ u.ctx.meta_block_header.scratch_idx) :
    (((sst_meta_update_finalize u).1).flash X).ometa = (u.flash X).ometa := by
  simp only [sst_meta_update_finalize, sst_meta_erase_scratch_blocks,
    sst_meta_swap_metablocks, sst_meta_write_scratch_meta_header,
    sst_meta_cur_data_scratch, sst_meta_cur_meta_scratch]
  rw [if_neg (show ¬ (SST_LOGICAL_DBLOCK0 + 1 = SST_LOGICAL_DBLOCK0) by decide)]
  try dsimp only
  rw [writeBlock_ne _ _ _ _ hP, writeBlock_ne _ _ _ _ hA]
  repeat rw [writeBlock_ometa]
  all_goals exact fun blk => rfl

theorem finalize_bmeta (u : SstState) (X : Nat)
    (hA : X ≠ u.ctx.active_metablock)
    (hP : X ≠ u.ctx.meta_block_header.scratch_idx) :
    (((sst_meta_update_finalize u).1).flash X).bmeta = (u.flash X).bmeta := by
  simp only [sst_meta_update_finalize, sst_meta_erase_scratch_blocks,
    sst_meta_swap_metablocks, sst_meta_write_scratch_meta_header,
    sst_meta_cur_data_scratch, sst_meta_cur_meta_scratch]
  rw [if_neg (show ¬ (SST_LOGICAL_DBLOCK0 + 1 = SST_LOGICAL_DBLOCK0) by decide)]
  try dsimp only
  rw [writeBlock_ne _ _ _ _ hP, writeBlock_ne _ _ _ _ hA]
  repeat rw [writeBlock_bmeta]
  all_goals exact fun blk => rfl

theorem delete_final_chars (s : SstState) (h di : Nat) (om : AssetMeta)
    (hdi : sst_utils_extract_index_from_handle h = di)
    (hom : sst_meta_read_object_meta s di = om)
    (hAS : s.ctx.active_metablock ≠ s.ctx.scratch_metablock)
    (hDS : s.ctx.meta_block_header.scratch_idx ≠ s.ctx.scratch_metablock)
    (hPS : (sst_meta_read_block_metadata s om.lblock).phys_id ≠
      s.ctx.scratch_metablock)
    (hlenO : ((s.flash s.ctx.scratch_metablock).ometa).length = SST_NUM_ASSETS)
    (hlenB : ((s.flash s.ctx.scratch_metablock).bmeta).length =
      SST_NUM_ACTIVE_DBLOCKS)
    (hdilt : di < SST_NUM_ASSETS)
    (hlive : om.unique_id ≠ SST_INVALID_UUID)
    (hblt : om.lblock < SST_NUM_ACTIVE_DBLOCKS) :
    (sst_core_object_delete s h).1 = Err.success ∧
    (∀ j, j < SST_NUM_ASSETS → j ≠ di →
      sst_meta_read_object_meta (sst_core_object_delete s h).2.1 j =
        deleteShift om.lblock om.data_index om.max_size
          (sst_meta_read_object_meta s j)) ∧
    sst_meta_read_object_meta (sst_core_object_delete s h).2.1 di =
      { om with
        unique_id := SST_INVALID_UUID
        lblock := 0
        max_size := 0
        cur_size := 0 } ∧
    (sst_meta_read_block_metadata (sst_core_object_delete s h).2.1
        om.lblock).data_start =
      (sst_meta_read_block_metadata s om.lblock).data_start ∧
    (sst_meta_read_block_metadata (sst_core_object_delete s h).2.1
        om.lblock).free_size =
      u32add (sst_meta_read_block_metadata s om.lblock).free_size
        om.max_size := by
  subst hdi
  subst hom
  have hval : ¬ (sst_utils_validate_uuid
      (sst_meta_read_object_meta s
        (sst_utils_extract_index_from_handle h)).unique_id ≠ Err.success) := by
    unfold sst_utils_validate_uuid
    rw [if_neg hlive]
    exact fun hc => hc rfl
  let DI := sst_utils_extract_index_from_handle h
  let OM := sst_meta_read_object_meta s DI
  let CL : AssetMeta := { OM with
    unique_id := SST_INVALID_UUID
    lblock := 0
    max_size := 0
    cur_size := 0 }
  let U1 := sst_mblock_update_scratch_object_meta s DI CL
  let LP := (List.range SST_NUM_ASSETS).foldl
    (sst_delete_loop_step DI OM.lblock OM.data_index OM.max_size)
    (U1.1, U1.2, SST_BLOCK_SIZE, 0)
  let CP := sst_compact_dblock LP.1 OM.lblock OM.max_size LP.2.2.1
    OM.data_index LP.2.2.2
  have herr : (sst_core_object_delete s h).1 = Err.success := by
    simp only [sst_core_object_delete, sst_core_object_delete_pre, opSeq]
    rw [if_neg hval]
  have hstate : (sst_core_object_delete s h).2.1 =
      (sst_meta_update_finalize CP.1).1 := by
    simp only [sst_core_object_delete, sst_core_object_delete_pre, opSeq]
    rw [if_neg hval]
  have hu1ctx : U1.1.ctx = s.ctx := rfl
  have hu1act : U1.1.flash s.ctx.active_metablock =
      s.flash s.ctx.active_metablock := by
    show (writeBlock s.flash (sst_meta_cur_meta_scratch s)
      (fun b => { b with ometa := b.ometa.set DI CL }))
      s.ctx.active_metablock = s.flash s.ctx.active_metablock
    exact writeBlock_ne _ _ _ _ hAS
  have hu1scr : U1.1.flash s.ctx.scratch_metablock =
      { s.flash s.ctx.scratch_metablock with
        ometa := ((s.flash s.ctx.scratch_metablock).ometa).set DI CL } := by
    show (writeBlock s.flash (sst_meta_cur_meta_scratch s)
      (fun b => { b with ometa := b.ometa.set DI CL }))
      (sst_meta_cur_meta_scratch s) =
      { s.flash s.ctx.scratch_metablock with
        ometa := ((s.flash s.ctx.scratch_metablock).ometa).set DI CL }
    exact writeBlock_eq _ _ _
  have hloop := delete_loop_content DI OM.lblock OM.data_index OM.max_size s
    (List.range SST_NUM_ASSETS) (U1.1, U1.2, SST_BLOCK_SIZE, 0)
    hAS hu1ctx hu1act
  have hlact : LP.1.flash s.ctx.active_metablock =
      s.flash s.ctx.active_metablock := hloop.1
  have hloopB : ∀ j : Nat,
      ((LP.1.flash s.ctx.scratch_metablock).ometa).getD j default =
        (if j ∈ List.range SST_NUM_ASSETS ∧ j ≠ DI ∧
            j < ((U1.1.flash s.ctx.scratch_metablock).ometa).length then
          deleteShift OM.lblock OM.data_index OM.max_size
            (sst_meta_read_object_meta s j)
        else ((U1.1.flash s.ctx.scratch_metablock).ometa).getD j default) :=
    hloop.2
  have hU1len : ((U1.1.flash s.ctx.scratch_metablock).ometa).length =
      SST_NUM_ASSETS := by
    rw [hu1scr]
    simpa using hlenO
  have hlctx : LP.1.ctx = s.ctx :=
    (delete_loop_ctx DI OM.lblock OM.data_index OM.max_size
      (List.range SST_NUM_ASSETS) (U1.1, U1.2, SST_BLOCK_SIZE, 0)).trans hu1ctx
  have hbmL : sst_meta_read_block_metadata LP.1 OM.lblock =
      sst_meta_read_block_metadata s OM.lblock :=
    read_block_metadata_congr hlctx hlact OM.lblock
  have hscrbm : (LP.1.flash s.ctx.scratch_metablock).bmeta =
      (s.flash s.ctx.scratch_metablock).bmeta := by
    have h1 := delete_loop_bmeta DI OM.lblock OM.data_index OM.max_size
      (List.range SST_NUM_ASSETS) (U1.1, U1.2, SST_BLOCK_SIZE, 0)
      s.ctx.scratch_metablock
    exact h1.trans (writeBlock_bmeta _ _ _ _ (fun blk => rfl))
  have hlenL : OM.lblock <
      ((LP.1.flash LP.1.ctx.scratch_metablock).bmeta).length := by
    rw [hlctx, hscrbm, hlenB]
    exact hblt
  have hbr : CP.1.ctx.scratch_metablock = s.ctx.scratch_metablock ∧
      CP.1.ctx.active_metablock = s.ctx.active_metablock ∧
      s.ctx.scratch_metablock ≠ CP.1.ctx.meta_block_header.scratch_idx ∧
      ((CP.1.flash s.ctx.scratch_metablock).bmeta).getD OM.lblock default =
        { sst_meta_read_block_metadata s OM.lblock with
          phys_id :=
            if OM.lblock = SST_LOGICAL_DBLOCK0 then s.ctx.scratch_metablock
            else s.ctx.meta_block_header.scratch_idx
          free_size :=
            u32add (sst_meta_read_block_metadata s OM.lblock).free_size
              OM.max_size } := by
    by_cases hb0 : OM.lblock = SST_LOGICAL_DBLOCK0
    · have hc0 := compact_ctx0 LP.1 OM.lblock OM.max_size LP.2.2.1
        OM.data_index LP.2.2.2 hb0
      refine ⟨?_, ?_, ?_, ?_⟩
      · rw [hc0, hlctx]
      · rw [hc0, hlctx]
      · rw [hc0, hlctx]
        exact Ne.symm hDS
      · rw [if_pos hb0]
        have h1 := compact_scratch_bmeta0 LP.1 OM.lblock OM.max_size LP.2.2.1
          OM.data_index LP.2.2.2 hb0 hlenL
        rw [hlctx] at h1
        rw [hbmL] at h1
        exact h1
    · have hc1 := compact_ctx LP.1 OM.lblock OM.max_size LP.2.2.1
        OM.data_index LP.2.2.2 hb0
      refine ⟨?_, ?_, ?_, ?_⟩
      · rw [hc1, hlctx]
      · rw [hc1, hlctx]
      · rw [hc1, hlctx, hbmL]
        exact Ne.symm hPS
      · rw [if_neg hb0]
        have h1 := compact_scratch_bmeta LP.1 OM.lblock OM.max_size LP.2.2.1
          OM.data_index LP.2.2.2 hb0 hlenL
        rw [hlctx] at h1
        rw [hbmL] at h1
        exact h1
  obtain ⟨hCPscr, hCPact, hP2, hCPbm⟩ := hbr
  have hCPometa : (CP.1.flash s.ctx.scratch_metablock).ometa =
      (LP.1.flash s.ctx.scratch_metablock).ometa :=
    compact_ometa LP.1 OM.lblock OM.max_size LP.2.2.1 OM.data_index LP.2.2.2
      s.ctx.scratch_metablock
  have hA2 : s.ctx.scratch_metablock ≠ CP.1.ctx.active_metablock := by
    rw [hCPact]
    exact Ne.symm hAS
  have hFINactive : ((sst_meta_update_finalize CP.1).1).ctx.active_metablock =
      s.ctx.scratch_metablock := by
    rw [finalize_active]
    exact hCPscr
  have hFINometa : (((sst_meta_update_finalize CP.1).1).flash
      s.ctx.scratch_metablock).ometa =
      (LP.1.flash s.ctx.scratch_metablock).ometa := by
    rw [finalize_ometa CP.1 s.ctx.scratch_metablock hA2 hP2, hCPometa]
  have hFINbmeta : (((sst_meta_update_finalize CP.1).1).flash
      s.ctx.scratch_metablock).bmeta =
      (CP.1.flash s.ctx.scratch_metablock).bmeta :=
    finalize_bmeta CP.1 s.ctx.scratch_metablock hA2 hP2
  refine ⟨herr, ?_, ?_, ?_, ?_⟩
  · intro j hj hne
    rw [hstate]
    unfold sst_meta_read_object_meta
    rw [hFINactive, hFINometa, hloopB j,
      if_pos ⟨List.mem_range.mpr hj, hne, by rw [hU1len]; exact hj⟩]
    rfl
  · rw [hstate]
    unfold sst_meta_read_object_meta
    rw [hFINactive, hFINometa, hloopB DI,
      if_neg (fun hc => hc.2.1 rfl), hu1scr]
    show (((s.flash s.ctx.scratch_metablock).ometa).set DI CL).getD DI default = _
    rw [list_getD_set, if_pos ⟨rfl, by rw [hlenO]; exact hdilt⟩]
    rfl
  · rw [hstate]
    unfold sst_meta_read_block_metadata sst_meta_cur_meta_active
    rw [hFINactive, hFINbmeta, hCPbm]
    rfl
  · rw [hstate]
    unfold sst_meta_read_block_metadata sst_meta_cur_meta_active
    rw [hFINactive, hFINbmeta, hCPbm]
    rfl

theorem compaction_sep (n ds : Nat) (live : Nat → Prop) [DecidablePred live]
    (d M : Nat → Nat)
    (hcont : ∀ j, j < n → live j →
      d j = ds + ∑ k in Finset.range n,
        if live k ∧ d k < d j then M k else 0)
    (j k : Nat) (hjn : j < n) (hkn : k < n) (hjl : live j) (hkl : live k)
    (hlt : d j < d k) :
    d j + M j ≤ d k := by
  have hj := hcont j hjn hjl
  have hk := hcont k hkn hkl
  rw [← Finset.sum_filter] at hj hk
  have hjA : j ∉ (Finset.range n).filter (fun m => live m ∧ d m < d j) := by
    simp [Finset.mem_filter]
  have hsub : insert j ((Finset.range n).filter (fun m => live m ∧ d m < d j)) ⊆
      (Finset.range n).filter (fun m => live m ∧ d m < d k) := by
    intro m hm
    rcases Finset.mem_insert.1 hm with rfl | hm2
    · exact Finset.mem_filter.2 ⟨Finset.mem_range.2 hjn, hjl, hlt⟩
    · obtain ⟨h1, h2, h3⟩ := Finset.mem_filter.1 hm2
      exact Finset.mem_filter.2 ⟨h1, h2, h3.trans hlt⟩
  have hsum : (∑ m in insert j ((Finset.range n).filter
        (fun m => live m ∧ d m < d j)), M m) ≤
      ∑ m in (Finset.range n).filter (fun m => live m ∧ d m < d k), M m :=
    Finset.sum_le_sum_of_subset hsub
  rw [Finset.sum_insert hjA] at hsum
  omega

theorem compaction_main (n di ds : Nat) (live : Nat → Prop) [DecidablePred live]
    (d M : Nat → Nat)
    (hdin : di < n) (hdl : live di)
    (hdist : ∀ j k, j < n → k < n → live j → live k → j ≠ k → d j ≠ d k)
    (hcont : ∀ j, j < n → live j →
      d j = ds + ∑ k in Finset.range n,
        if live k ∧ d k < d j then M k else 0) :
    (∀ j, j < n → live j → j ≠ di →
      (if d di < d j then d j - M di else d j) =
        ds + ∑ k in Finset.range n,
          if (live k ∧ k ≠ di) ∧
            (if d di < d k then d k - M di else d k) <
              (if d di < d j then d j - M di else d j) then M k else 0) ∧
    (∑ k in Finset.range n, if live k ∧ k ≠ di then M k else 0) + M di =
      ∑ k in Finset.range n, if live k then M k else 0 := by
  constructor
  · intro j hjn hjl hjdi
    by_cases hgt : d di < d j
    · simp only [if_pos hgt]
      rw [← Finset.sum_filter]
      have h2 : d di + M di ≤ d j :=
        compaction_sep n ds live d M hcont di j hdin hjn hdl hjl hgt
      have hdiF : di ∈ (Finset.range n).filter
          (fun m => live m ∧ d m < d j) :=
        Finset.mem_filter.2 ⟨Finset.mem_range.2 hdin, hdl, hgt⟩
      have hset : (Finset.range n).filter (fun k => (live k ∧ k ≠ di) ∧
          (if d di < d k then d k - M di else d k) < d j - M di) =
          ((Finset.range n).filter (fun m => live m ∧ d m < d j)).erase di := by
        ext m
        simp only [Finset.mem_filter, Finset.mem_erase, Finset.mem_range]
        constructor
        · rintro ⟨hmn, ⟨hml, hmdi⟩, hlt⟩
          refine ⟨hmdi, hmn, hml, ?_⟩
          by_cases hc : d di < d m
          · rw [if_pos hc] at hlt
            have h1 : d di + M di ≤ d m :=
              compaction_sep n ds live d M hcont di m hdin hmn hdl hml hc
            omega
          · rw [if_neg hc] at hlt
            omega
        · rintro ⟨hmdi, hmn, hml, hmlt⟩
          refine ⟨hmn, ⟨hml, hmdi⟩, ?_⟩
          by_cases hc : d di < d m
          · rw [if_pos hc]
            have h1 : d di + M di ≤ d m :=
              compaction_sep n ds live d M hcont di m hdin hmn hdl hml hc
            have h3 : d m + M m ≤ d j :=
              compaction_sep n ds live d M hcont m j hmn hjn hml hjl hmlt
            have h4 : 0 < M m ∨ 0 = M m := by omega
            omega
          · rw [if_neg hc]
            have hne2 : d m ≠ d di := hdist m di hmn hdin hml hdl hmdi
            omega
      rw [hset]
      have hj := hcont j hjn hjl
      rw [← Finset.sum_filter] at hj
      have hadd := Finset.sum_erase_add
        ((Finset.range n).filter (fun m => live m ∧ d m < d j)) M hdiF
      omega
    · simp only [if_neg hgt]
      have hne2 : d j ≠ d di := hdist j di hjn hdin hjl hdl hjdi
      have hlt2 : d j < d di := by omega
      rw [← Finset.sum_filter]
      have hset : (Finset.range n).filter (fun k => (live k ∧ k ≠ di) ∧
          (if d di < d k then d k - M di else d k) < d j) =
          (Finset.range n).filter (fun m => live m ∧ d m < d j) := by
        ext m
        simp only [Finset.mem_filter, Finset.mem_range]
        constructor
        · rintro ⟨hmn, ⟨hml, hmdi⟩, hlt⟩
          refine ⟨hmn, hml, ?_⟩
          by_cases hc : d di < d m
          · rw [if_pos hc] at hlt
            have h1 : d di + M di ≤ d m :=
              compaction_sep n ds live d M hcont di m hdin hmn hdl hml hc
            omega
          · rw [if_neg hc] at hlt
            exact hlt
        · rintro ⟨hmn, hml, hmlt⟩
          have hmdi : m ≠ di := by
            intro he
            rw [he] at hmlt
            omega
          refine ⟨hmn, ⟨hml, hmdi⟩, ?_⟩
          have hc : ¬ (d di < d m) := by omega
          rw [if_neg hc]
          exact hmlt
      rw [hset]
      have hj := hcont j hjn hjl
      rw [← Finset.sum_filter] at hj
      exact hj
  · have hset : (Finset.range n).filter (fun k => live k ∧ k ≠ di) =
        ((Finset.range n).filter (fun k => live k)).erase di := by
      ext m
      simp only [Finset.mem_filter, Finset.mem_erase, Finset.mem_range]
      tauto
    have hdiF : di ∈ (Finset.range n).filter (fun k => live k) :=
      Finset.mem_filter.2 ⟨Finset.mem_range.2 hdin, hdl⟩
    rw [← Finset.sum_filter, ← Finset.sum_filter, hset]
    exact Finset.sum_erase_add _ M hdiF

/-- C5: after a successful `sst_core_object_delete` of the live object at the
handle's index (stored in logical block `b`, at data offset `dd`, with
reserved size `max`), in the new active metadata: every other surviving
object of `b` whose `data_index` was above `dd` has its `data_index`
decreased by exactly `max` (uuid, logical block and `max_size` unchanged),
the deleted entry is cleared, `b`'s `data_start` is unchanged while its
`free_size` grows by exactly `max`, the surviving objects of `b` again tile
the block contiguously from `data_start`, and `free_size` equals
`SST_BLOCK_SIZE - data_start` minus the total `max_size` of the surviving
objects of `b`. -/
theorem sse_delete_compacts_block (s : SstState) (h di : Nat) (om : AssetMeta)
    (hdi : sst_utils_extract_index_from_handle h = di)
    (hom : sst_meta_read_object_meta s di = om)
    (hAS : s.ctx.active_metablock ≠ s.ctx.scratch_metablock)
    (hDS : s.ctx.meta_block_header.scratch_idx ≠ s.ctx.scratch_metablock)
    (hPS : (sst_meta_read_block_metadata s om.lblock).phys_id ≠
      s.ctx.scratch_metablock)
    (hlenO : ((s.flash s.ctx.scratch_metablock).ometa).length = SST_NUM_ASSETS)
    (hlenB : ((s.flash s.ctx.scratch_metablock).bmeta).length =
      SST_NUM_ACTIVE_DBLOCKS)
    (hdilt : di < SST_NUM_ASSETS)
    (hlive : om.unique_id ≠ SST_INVALID_UUID)
    (hblt : om.lblock < SST_NUM_ACTIVE_DBLOCKS)
    (hcont : Contiguous s om.lblock)
    (hdist : ∀ j k, j < SST_NUM_ASSETS → k < SST_NUM_ASSETS →
      inBlock (sst_meta_read_object_meta s j) om.lblock →
      inBlock (sst_meta_read_object_meta s k) om.lblock → j ≠ k →
      (sst_meta_read_object_meta s j).data_index ≠
        (sst_meta_read_object_meta s k).data_index)
    (hbnd : ∀ j, j < SST_NUM_ASSETS →
      inBlock (sst_meta_read_object_meta s j) om.lblock →
      (sst_meta_read_object_meta s j).data_index +
        (sst_meta_read_object_meta s j).max_size ≤ SST_BLOCK_SIZE)
    (hfree : (sst_meta_read_block_metadata s om.lblock).data_start +
      sumMaxAll s om.lblock +
      (sst_meta_read_block_metadata s om.lblock).free_size = SST_BLOCK_SIZE) :
    (sst_core_object_delete s h).1 = Err.success ∧
    (∀ j, j < SST_NUM_ASSETS → j ≠ di →
      inBlock (sst_meta_read_object_meta s j) om.lblock →
      om.data_index < (sst_meta_read_object_meta s j).data_index →
      (sst_meta_read_object_meta (sst_core_object_delete s h).2.1 j).data_index
          = (sst_meta_read_object_meta s j).data_index - om.max_size ∧
      (sst_meta_read_object_meta (sst_core_object_delete s h).2.1 j).unique_id
          = (sst_meta_read_object_meta s j).unique_id ∧
      (sst_meta_read_object_meta (sst_core_object_delete s h).2.1 j).lblock
          = (sst_meta_read_object_meta s j).lblock ∧
      (sst_meta_read_object_meta (sst_core_object_delete s h).2.1 j).max_size
          = (sst_meta_read_object_meta s j).max_size) ∧
    (sst_meta_read_object_meta (sst_core_object_delete s h).2.1 di).unique_id
        = SST_INVALID_UUID ∧
    (sst_meta_read_block_metadata (sst_core_object_delete s h).2.1
        om.lblock).data_start =
      (sst_meta_read_block_metadata s om.lblock).data_start ∧
    (sst_meta_read_block_metadata (sst_core_object_delete s h).2.1
        om.lblock).free_size =
      (sst_meta_read_block_metadata s om.lblock).free_size + om.max_size ∧
    Contiguous (sst_core_object_delete s h).2.1 om.lblock ∧
    (sst_meta_read_block_metadata (sst_core_object_delete s h).2.1
        om.lblock).free_size =
      SST_BLOCK_SIZE -
        (sst_meta_read_block_metadata (sst_core_object_delete s h).2.1
          om.lblock).data_start -
        sumMaxAll (sst_core_object_delete s h).2.1 om.lblock := by
  subst hom
  obtain ⟨hE, hOth, hDel, hBmD, hBmF⟩ := delete_final_chars s h di
    (sst_meta_read_object_meta s di) hdi rfl hAS hDS hPS hlenO hlenB hdilt
    hlive hblt
  set b := (sst_meta_read_object_meta s di).lblock with hb
  set dd := (sst_meta_read_object_meta s di).data_index with hdd
  set Md := (sst_meta_read_object_meta s di).max_size with hMd
  have hbs : SST_BLOCK_SIZE = 4096 := rfl
  have hu32 : U32 = 4294967296 := by norm_num [U32]
  have hdl2 : inBlock (sst_meta_read_object_meta s di) b := ⟨hlive, hb.symm⟩
  have hcont2 : ∀ j, j < SST_NUM_ASSETS →
      inBlock (sst_meta_read_object_meta s j) b →
      (sst_meta_read_object_meta s j).data_index =
        (sst_meta_read_block_metadata s b).data_start +
        ∑ k in Finset.range SST_NUM_ASSETS,
          if inBlock (sst_meta_read_object_meta s k) b ∧
              (sst_meta_read_object_meta s k).data_index <
                (sst_meta_read_object_meta s j).data_index then
            (sst_meta_read_object_meta s k).max_size
          else 0 := hcont
  have hsepdi : ∀ k, k < SST_NUM_ASSETS →
      inBlock (sst_meta_read_object_meta s k) b →
      dd < (sst_meta_read_object_meta s k).data_index →
      dd + Md ≤ (sst_meta_read_object_meta s k).data_index := by
    intro k hk hkb hlt
    exact compaction_sep SST_NUM_ASSETS
      (sst_meta_read_block_metadata s b).data_start
      (fun j => inBlock (sst_meta_read_object_meta s j) b)
      (fun j => (sst_meta_read_object_meta s j).data_index)
      (fun j => (sst_meta_read_object_meta s j).max_size)
      hcont2 di k hdilt hk hdl2 hkb hlt
  have hDxAll : ∀ k, k < SST_NUM_ASSETS → k ≠ di →
      inBlock (sst_meta_read_object_meta s k) b →
      (sst_meta_read_object_meta (sst_core_object_delete s h).2.1 k).data_index
        = (if dd < (sst_meta_read_object_meta s k).data_index then
            (sst_meta_read_object_meta s k).data_index - Md
          else (sst_meta_read_object_meta s k).data_index) := by
    intro k hk hkdi hkb
    rw [hOth k hk hkdi, deleteShift_data_index]
    simp only [gt_iff_lt]
    by_cases hgt : dd < (sst_meta_read_object_meta s k).data_index
    · have hs := hsepdi k hk hkb hgt
      have hb2 := hbnd k hk hkb
      rw [if_pos ⟨hkb.2, hgt⟩, if_pos hgt]
      exact u32sub_eq_sub (by omega) (by omega)
    · rw [if_neg (fun hc => hgt hc.2), if_neg hgt]
  have hMxAll : ∀ k, k < SST_NUM_ASSETS → k ≠ di →
      (sst_meta_read_object_meta (sst_core_object_delete s h).2.1 k).max_size
        = (sst_meta_read_object_meta s k).max_size := by
    intro k hk hkdi
    rw [hOth k hk hkdi, deleteShift_max_size]
  have hLiveIff : ∀ k, k < SST_NUM_ASSETS →
      (inBlock (sst_meta_read_object_meta (sst_core_object_delete s h).2.1 k) b
        ↔ (inBlock (sst_meta_read_object_meta s k) b ∧ k ≠ di)) := by
    intro k hk
    by_cases hkdi : k = di
    · subst hkdi
      constructor
      · intro hc
        rw [hDel] at hc
        exact absurd rfl hc.1
      · rintro ⟨_, hne⟩
        exact absurd rfl hne
    · constructor
      · intro hc
        rw [hOth k hk hkdi] at hc
        refine ⟨⟨?_, ?_⟩, hkdi⟩
        · have h1 := hc.1
          rwa [deleteShift_unique_id] at h1
        · have h2 := hc.2
          rwa [deleteShift_lblock] at h2
      · rintro ⟨⟨h1, h2⟩, _⟩
        rw [hOth k hk hkdi]
        exact ⟨by rwa [deleteShift_unique_id], by rwa [deleteShift_lblock]⟩
  have hdsEq : (sst_meta_read_block_metadata
      (sst_core_object_delete s h).2.1 b).data_start =
      (sst_meta_read_block_metadata s b).data_start := hBmD
  have hfb : (sst_meta_read_block_metadata s b).free_size ≤ SST_BLOCK_SIZE := by
    omega
  have hmd : Md ≤ SST_BLOCK_SIZE := by
    have := hbnd di hdilt hdl2
    omega
  have hfreeEq : (sst_meta_read_block_metadata
      (sst_core_object_delete s h).2.1 b).free_size =
      (sst_meta_read_block_metadata s b).free_size + Md := by
    rw [hBmF]
    exact u32add_eq_add (by omega)
  have hSumBelow : ∀ x, sumMaxBelow (sst_core_object_delete s h).2.1 b x =
      ∑ k in Finset.range SST_NUM_ASSETS,
        if (inBlock (sst_meta_read_object_meta s k) b ∧ k ≠ di) ∧
            (if dd < (sst_meta_read_object_meta s k).data_index then
              (sst_meta_read_object_meta s k).data_index - Md
            else (sst_meta_read_object_meta s k).data_index) < x then
          (sst_meta_read_object_meta s k).max_size
        else 0 := by
    intro x
    unfold sumMaxBelow
    refine Finset.sum_congr rfl ?_
    intro k hk
    have hkn : k < SST_NUM_ASSETS := Finset.mem_range.1 hk
    by_cases hkdi : k = di
    · subst hkdi
      have hA2 : ¬ (inBlock (sst_meta_read_object_meta
          (sst_core_object_delete s h).2.1 k) b ∧
          (sst_meta_read_object_meta
            (sst_core_object_delete s h).2.1 k).data_index < x) :=
        fun hcc => ((hLiveIff k hkn).1 hcc.1).2 rfl
      have hB2 : ¬ ((inBlock (sst_meta_read_object_meta s k) b ∧ k ≠ k) ∧
          (if dd < (sst_meta_read_object_meta s k).data_index then
            (sst_meta_read_object_meta s k).data_index - Md
          else (sst_meta_read_object_meta s k).data_index) < x) :=
        fun hcc => hcc.1.2 rfl
      rw [if_neg hA2, if_neg hB2]
    · by_cases hkb : inBlock (sst_meta_read_object_meta s k) b
      · have hd := hDxAll k hkn hkdi hkb
        have hm := hMxAll k hkn hkdi
        have hiff : (inBlock (sst_meta_read_object_meta
            (sst_core_object_delete s h).2.1 k) b ∧
            (sst_meta_read_object_meta
              (sst_core_object_delete s h).2.1 k).data_index < x) ↔
            ((inBlock (sst_meta_read_object_meta s k) b ∧ k ≠ di) ∧
            (if dd < (sst_meta_read_object_meta s k).data_index then
              (sst_meta_read_object_meta s k).data_index - Md
            else (sst_meta_read_object_meta s k).data_index) < x) := by
          rw [hLiveIff k hkn, hd]
        rw [hm]
        exact if_congr hiff rfl rfl
      · have hA2 : ¬ (inBlock (sst_meta_read_object_meta
            (sst_core_object_delete s h).2.1 k) b ∧
            (sst_meta_read_object_meta
              (sst_core_object_delete s h).2.1 k).data_index < x) :=
          fun hcc => hkb ((hLiveIff k hkn).1 hcc.1).1
        have hB2 : ¬ ((inBlock (sst_meta_read_object_meta s k) b ∧ k ≠ di) ∧
            (if dd < (sst_meta_read_object_meta s k).data_index then
              (sst_meta_read_object_meta s k).data_index - Md
            else (sst_meta_read_object_meta s k).data_index) < x) :=
          fun hcc => hkb hcc.1.1
        rw [if_neg hA2, if_neg hB2]
  have hSumAll : sumMaxAll (sst_core_object_delete s h).2.1 b =
      ∑ k in Finset.range SST_NUM_ASSETS,
        if inBlock (sst_meta_read_object_meta s k) b ∧ k ≠ di then
          (sst_meta_read_object_meta s k).max_size
        else 0 := by
    unfold sumMaxAll
    refine Finset.sum_congr rfl ?_
    intro k hk
    have hkn : k < SST_NUM_ASSETS := Finset.mem_range.1 hk
    by_cases hkdi : k = di
    · subst hkdi
      have hA2 : ¬ inBlock (sst_meta_read_object_meta
          (sst_core_object_delete s h).2.1 k) b :=
        fun hcc => ((hLiveIff k hkn).1 hcc).2 rfl
      have hB2 : ¬ (inBlock (sst_meta_read_object_meta s k) b ∧ k ≠ k) :=
        fun hcc => hcc.2 rfl
      rw [if_neg hA2, if_neg hB2]
    · by_cases hkb : inBlock (sst_meta_read_object_meta s k) b
      · have hm := hMxAll k hkn hkdi
        have hiff : inBlock (sst_meta_read_object_meta
            (sst_core_object_delete s h).2.1 k) b ↔
            (inBlock (sst_meta_read_object_meta s k) b ∧ k ≠ di) :=
          hLiveIff k hkn
        rw [hm]
        exact if_congr hiff rfl rfl
      · have hA2 : ¬ inBlock (sst_meta_read_object_meta
            (sst_core_object_delete s h).2.1 k) b :=
          fun hcc => hkb ((hLiveIff k hkn).1 hcc).1
        have hB2 : ¬ (inBlock (sst_meta_read_object_meta s k) b ∧ k ≠ di) :=
          fun hcc => hkb hcc.1
        rw [if_neg hA2, if_neg hB2]
  have key := compaction_main SST_NUM_ASSETS di
    (sst_meta_read_block_metadata s b).data_start
    (fun j => inBlock (sst_meta_read_object_meta s j) b)
    (fun j => (sst_meta_read_object_meta s j).data_index)
    (fun j => (sst_meta_read_object_meta s j).max_size)
    hdilt hdl2 hdist hcont2
  obtain ⟨keyA, keyB⟩ := key
  dsimp only at keyA keyB
  refine ⟨hE, ?_, ?_, hdsEq, hfreeEq, ?_, ?_⟩
  · intro j hj hjdi hjb hgt
    refine ⟨?_, ?_, ?_, hMxAll j hj hjdi⟩
    · rw [hDxAll j hj hjdi hjb, if_pos hgt]
    · rw [hOth j hj hjdi, deleteShift_unique_id]
    · rw [hOth j hj hjdi, deleteShift_lblock]
  · rw [hDel]
  · intro j hj hjb2
    have hjdi : j ≠ di := fun he => ((hLiveIff j hj).1 hjb2).2 he
    have hjb : inBlock (sst_meta_read_object_meta s j) b :=
      ((hLiveIff j hj).1 hjb2).1
    rw [hDxAll j hj hjdi hjb, hdsEq, hSumBelow]
    exact keyA j hj hjb hjdi
  · rw [hfreeEq, hdsEq, hSumAll]
    have hfree2 := hfree
    unfold sumMaxAll at hfree2
    rw [← hMd] at keyB
    omega

theorem sse_delete_compacts_block_witness :
    ((sst_core_object_delete exampleState (sst_utils_compose_handle 5 0)).1 =
        Err.success ∧
      (sst_meta_read_block_metadata
          (sst_core_object_delete exampleState
            (sst_utils_compose_handle 5 0)).2.1 1).free_size = 4088 ∧
      Contiguous (sst_core_object_delete exampleState
        (sst_utils_compose_handle 5 0)).2.1 1) ∧
    ((sst_core_object_delete exampleState0 (sst_utils_compose_handle 5 0)).1 =
        Err.success ∧
      (sst_meta_read_block_metadata
          (sst_core_object_delete exampleState0
            (sst_utils_compose_handle 5 0)).2.1 0).free_size = 3868 ∧
      Contiguous (sst_core_object_delete exampleState0
        (sst_utils_compose_handle 5 0)).2.1 0) := by
  have hw := sse_delete_compacts_block exampleState
    (sst_utils_compose_handle 5 0) 0 ⟨5, 1, 0, 4, 4⟩
    (by decide) (by decide) (by decide) (by decide) (by decide) (by decide)
    (by decide) (by decide) (by decide) (by decide)
    (by unfold Contiguous; decide)
    (by intro j k hj hk
        simp only [SST_NUM_ASSETS] at hj hk
        interval_cases j <;> interval_cases k <;> decide)
    (by decide) (by decide)
  have hw0 := sse_delete_compacts_block exampleState0
    (sst_utils_compose_handle 5 0) 0 ⟨5, 0, 220, 4, 4⟩
    (by decide) (by decide) (by decide) (by decide) (by decide) (by decide)
    (by decide) (by decide) (by decide) (by decide)
    (by unfold Contiguous; decide)
    (by intro j k hj hk
        simp only [SST_NUM_ASSETS] at hj hk
        interval_cases j <;> interval_cases k <;> decide)
    (by decide) (by decide)
  refine ⟨⟨hw.1, ?_, hw.2.2.2.2.2.1⟩, hw0.1, ?_, hw0.2.2.2.2.2.1⟩
  · exact (hw.2.2.2.2.1).trans (by decide)
  · exact (hw0.2.2.2.2.1).trans (by decide)
